import Mathlib

/-!
Shallow embedding of the pacbot-rs game core (RIT-MDRC/pacbot-rs) and proofs
about the claims of its specification.

Conventions of the embedding:
* Rust `u8`/`u16`/`u32` fields are modelled as `Nat`; wrapping or saturating
  arithmetic is made explicit (`% 2 ^ w`, `min _ 65535`) exactly at the
  operations where the Rust code wraps or saturates.
* Rust `i8` coordinates are modelled as `Int`.  The game code never performs
  `i8` arithmetic that can overflow for board-range values; bit-packing of
  coordinates into bytes is modelled with `% 64`, which agrees with taking the
  low six bits of the two's-complement representation.
* Fallible code is modelled with `Option`/`Except`; a Rust panic
  (`unreachable!()`, `expect`) is the explicit error value `DErr.panic`,
  an I/O failure of the byte cursor is `DErr.io`.
* The random choice made for frightened ghosts goes through the external
  `rand::SmallRng` crate, which is not part of this repository; all functions
  that can draw randomness are parameterized by an oracle
  `rng : Nat → Nat → Nat × Nat` mapping (seed, number of choices) to
  (choice, next seed).  Every theorem below holds for every such oracle.
-/

namespace Pacbot

/-- Modelled from the spec: the `GameMode` enum with its `duration()` method is
referenced by `game_state.rs` and `game_helpers.rs` but its definition is not
under `src/` (the `game_modes.rs` present there is a stale port using raw `u8`
modes).  Spec section 4.2: Scatter has duration 60 steps, Chase 180 steps. -/
inductive GameMode where
  | CHASE
  | SCATTER
deriving DecidableEq

/-- Modelled from the spec: `GameMode::duration()` (Scatter 60, Chase 180). -/
def GameMode.duration : GameMode → Nat
  | .CHASE => 180
  | .SCATTER => 60

/-- `Direction` from `location.rs`. -/
inductive Direction where
  | Up
  | Left
  | Down
  | Right
  | Stay
deriving DecidableEq

/-- `Direction::opposite` from `location.rs`. -/
def Direction.opposite : Direction → Direction
  | .Up => .Down
  | .Left => .Right
  | .Down => .Up
  | .Right => .Left
  | .Stay => .Stay

/-- `Direction::vector` from `location.rs`. -/
def Direction.vector : Direction → Int × Int
  | .Up => (-1, 0)
  | .Down => (1, 0)
  | .Left => (0, -1)
  | .Right => (0, 1)
  | .Stay => (0, 0)

/-- `Direction::all_except_stay` from `location.rs`. -/
def Direction.all_except_stay : List Direction :=
  [.Up, .Left, .Down, .Right]

/-- `GhostColor` from `ghost_state.rs`. -/
inductive GhostColor where
  | Red
  | Pink
  | Cyan
  | Orange
deriving DecidableEq

/-- The array index of a ghost color (`color as usize`). -/
def GhostColor.idx : GhostColor → Fin 4
  | .Red => 0
  | .Pink => 1
  | .Cyan => 2
  | .Orange => 3

/-- `GHOST_NAMES` from `ghost_state.rs`: index-to-color table. -/
def GHOST_NAMES : Fin 4 → GhostColor
  | ⟨0, _⟩ => .Red
  | ⟨1, _⟩ => .Pink
  | ⟨2, _⟩ => .Cyan
  | ⟨3, _⟩ => .Orange

/-- `pub type Position = (i8, i8)` from `game_helpers.rs`. -/
def Position := Int × Int
deriving DecidableEq

/-- `LocationState` from `location.rs` (`row: i8`, `col: i8`, `dir`). -/
structure LocationState where
  row : Int
  col : Int
  dir : Direction
deriving DecidableEq

/-- `is_super_pellet` from `location.rs`. -/
def is_super_pellet (position : Position) : Bool :=
  ((position.1 == 3) || (position.1 == 23)) && ((position.2 == 1) || (position.2 == 26))

/-- `EMPTY_LOC` from `variables.rs`. -/
def EMPTY_LOC : LocationState := ⟨32, 32, .Stay⟩

/-- `LocationState::collides_with` from `location.rs`. -/
def LocationState.collides_with (l : LocationState) (loc2 : LocationState) : Bool :=
  if l.row ≥ 32 || l.col ≥ 32 || loc2.row ≥ 32 || loc2.col ≥ 32 then
    false
  else
    (l.row == loc2.row) && (l.col == loc2.col)

/-- `LocationState::is_empty` from `location.rs`. -/
def LocationState.is_empty (l : LocationState) : Bool :=
  (l.row == EMPTY_LOC.row) && (l.col == EMPTY_LOC.col)

/-- `LocationState::get_coords` from `location.rs`. -/
def LocationState.get_coords (l : LocationState) : Position :=
  (l.row, l.col)

/-- `LocationState::get_neighbor_coords` from `location.rs`. -/
def LocationState.get_neighbor_coords (l : LocationState) (dir : Direction) : Position :=
  (l.row + dir.vector.1, l.col + dir.vector.2)

/-- `LocationState::get_ahead_coords` from `location.rs`. -/
def LocationState.get_ahead_coords (l : LocationState) (spaces : Int) : Position :=
  (l.row + l.dir.vector.1 * spaces, l.col + l.dir.vector.2 * spaces)

/-- `LocationState::advance_from` from `location.rs`: place `l` one step ahead
of `loc2`, copying its direction. -/
def LocationState.advance_from (_l : LocationState) (loc2 : LocationState) : LocationState :=
  ⟨(loc2.get_ahead_coords 1).1, (loc2.get_ahead_coords 1).2, loc2.dir⟩

/-- `LocationState::update_coords` from `location.rs`. -/
def LocationState.update_coords (l : LocationState) (coords : Position) : LocationState :=
  { l with row := coords.1, col := coords.2 }

/-- `dist_sq` from `location.rs` (i8 inputs widened to i32; the result of
`dx*dx + dy*dy` is non-negative, so the `as u32` cast is `Int.toNat`). -/
def dist_sq (p1 : Position) (p2 : Position) : Nat :=
  ((p2.1 - p1.1) * (p2.1 - p1.1) + (p2.2 - p1.2) * (p2.2 - p1.2)).toNat

/-- `GHOST_SPAWN_LOCS` from `variables.rs`, indexed by color. -/
def GHOST_SPAWN_LOCS : GhostColor → LocationState
  | .Red => ⟨11, 13, .Left⟩
  | .Pink => ⟨13, 13, .Down⟩
  | .Cyan => ⟨14, 11, .Up⟩
  | .Orange => ⟨14, 15, .Up⟩

/-- `GHOST_SCATTER_TARGETS` from `variables.rs`, indexed by color. -/
def GHOST_SCATTER_TARGETS : GhostColor → LocationState
  | .Red => ⟨-3, 25, .Stay⟩
  | .Pink => ⟨-3, 2, .Stay⟩
  | .Cyan => ⟨31, 27, .Stay⟩
  | .Orange => ⟨31, 0, .Stay⟩

/-- `GHOST_TRAPPED_STEPS` from `variables.rs`, indexed by color. -/
def GHOST_TRAPPED_STEPS : GhostColor → Nat
  | .Red => 0
  | .Pink => 5
  | .Cyan => 16
  | .Orange => 32

/-- Scalar constants from `variables.rs`. -/
def MAZE_ROWS : Nat := 31

def MAZE_COLS : Nat := 28

def INIT_UPDATE_PERIOD : Nat := 12

def LEVEL_DURATION : Nat := 960

def LEVEL_PENALTY_DURATION : Nat := 240

def INIT_MODE : GameMode := .SCATTER

def INIT_LEVEL : Nat := 1

def INIT_LIVES : Nat := 3

def GHOST_HOUSE_EXIT_POS : Position := (12, 13)

def PACMAN_SPAWN_LOC : LocationState := ⟨23, 13, .Up⟩

def FRUIT_SPAWN_LOC : LocationState := ⟨17, 13, .Stay⟩

def FRUIT_DURATION : Nat := 30

def FRUIT_POINTS : Nat := 100

def GHOST_FRIGHT_STEPS : Nat := 40

def INIT_PELLET_COUNT : Nat := 244

def FRUIT_THRESHOLD1 : Nat := 174

def FRUIT_THRESHOLD2 : Nat := 74

def ANGER_THRESHOLD1 : Nat := 20

def ANGER_THRESHOLD2 : Nat := 10

def PELLET_POINTS : Nat := 10

def SUPER_PELLET_POINTS : Nat := 50

def COMBO_MULTIPLIER : Nat := 200

/-- `INIT_PELLETS` from `variables.rs` (row-indexed 32-bit words). -/
def INIT_PELLETS : List Nat := [
  0b0000000000000000000000000000,
  0b0111111111111001111111111110,
  0b0100001000001001000001000010,
  0b0100001000001001000001000010,
  0b0100001000001001000001000010,
  0b0111111111111111111111111110,
  0b0100001001000000001001000010,
  0b0100001001000000001001000010,
  0b0111111001111001111001111110,
  0b0000001000000000000001000000,
  0b0000001000000000000001000000,
  0b0000001000000000000001000000,
  0b0000001000000000000001000000,
  0b0000001000000000000001000000,
  0b0000001000000000000001000000,
  0b0000001000000000000001000000,
  0b0000001000000000000001000000,
  0b0000001000000000000001000000,
  0b0000001000000000000001000000,
  0b0000001000000000000001000000,
  0b0111111111111001111111111110,
  0b0100001000001001000001000010,
  0b0100001000001001000001000010,
  0b0111001111111001111111001110,
  0b0001001001000000001001001000,
  0b0001001001000000001001001000,
  0b0111111001111001111001111110,
  0b0100000000001001000000000010,
  0b0100000000001001000000000010,
  0b0111111111111111111111111110,
  0b0000000000000000000000000000]

/-- `INIT_WALLS` from `variables.rs` (row-indexed 32-bit words). -/
def INIT_WALLS : List Nat := [
  0b1111111111111111111111111111,
  0b1000000000000110000000000001,
  0b1011110111110110111110111101,
  0b1011110111110110111110111101,
  0b1011110111110110111110111101,
  0b1000000000000000000000000001,
  0b1011110110111111110110111101,
  0b1011110110111111110110111101,
  0b1000000110000110000110000001,
  0b1111110111110110111110111111,
  0b1111110111110110111110111111,
  0b1111110110000000000110111111,
  0b1111110110111111110110111111,
  0b1111110110111111110110111111,
  0b1111110000111111110000111111,
  0b1111110110111111110110111111,
  0b1111110110111111110110111111,
  0b1111110110000000000110111111,
  0b1111110110111111110110111111,
  0b1111110110111111110110111111,
  0b1000000000000110000000000001,
  0b1011110111110110111110111101,
  0b1011110111110110111110111101,
  0b1000110000000000000000110001,
  0b1110110110111111110110110111,
  0b1110110110111111110110110111,
  0b1000000110000110000110000001,
  0b1011111111110110111111111101,
  0b1011111111110110111111111101,
  0b1000000000000000000000000001,
  0b1111111111111111111111111111]

/-- `GhostState` from `ghost_state.rs`. -/
structure GhostState where
  loc : LocationState
  next_loc : LocationState
  scatter_target : LocationState
  color : GhostColor
  trapped_steps : Nat
  fright_steps : Nat
  spawning : Bool
  eaten : Bool
deriving DecidableEq

namespace GhostState

/-- `GhostState::new` from `ghost_state.rs`. -/
def new (color : GhostColor) : GhostState where
  loc := EMPTY_LOC
  next_loc := GHOST_SPAWN_LOCS color
  scatter_target := GHOST_SCATTER_TARGETS color
  color := color
  trapped_steps := GHOST_TRAPPED_STEPS color
  fright_steps := 0
  spawning := true
  eaten := false

/-- `GhostState::update_aux` from `ghost_state.rs` (u8 bit operations on `Nat`). -/
def update_aux (g : GhostState) (aux_info : Nat) : GhostState :=
  { g with fright_steps := aux_info &&& 0x3f, spawning := (aux_info >>> 7) ≠ 0 }

/-- `GhostState::update_aux2` from `ghost_state.rs`. -/
def update_aux2 (g : GhostState) (aux2 : Nat) : GhostState :=
  { g with trapped_steps := aux2 &&& 0x3f, eaten := (aux2 >>> 7) ≠ 0 }

/-- `GhostState::get_aux` from `ghost_state.rs`. -/
def get_aux (g : GhostState) : Nat :=
  if g.spawning then (g.fright_steps &&& 0x3f) ||| (1 <<< 7) else g.fright_steps &&& 0x3f

/-- `GhostState::get_aux2` from `ghost_state.rs`. -/
def get_aux2 (g : GhostState) : Nat :=
  if g.eaten then (g.trapped_steps &&& 0x3f) ||| (1 <<< 7) else g.trapped_steps &&& 0x3f

/-- `GhostState::is_frightened` from `ghost_state.rs`. -/
def is_frightened (g : GhostState) : Bool :=
  g.fright_steps > 0

/-- `GhostState::is_trapped` from `ghost_state.rs`. -/
def is_trapped (g : GhostState) : Bool :=
  g.trapped_steps > 0

/-- `GhostState::from_bytes` from `ghost_state.rs` (the 4-argument form;
the caller in `game_state.rs` supplies only one auxiliary byte, so the
game-level decoder below passes `aux2 = 0`). -/
def from_bytes (color : GhostColor) (location : LocationState) (aux : Nat) (aux2 : Nat) :
    GhostState :=
  let s : GhostState :=
    { loc := location
      next_loc := location
      scatter_target := GHOST_SCATTER_TARGETS color
      color := color
      trapped_steps := 0
      fright_steps := 0
      spawning := false
      eaten := false }
  (s.update_aux aux).update_aux2 aux2

/-- `GhostState::reset` from `ghost_helpers.rs` (note: `eaten` is not touched). -/
def reset (g : GhostState) : GhostState :=
  { g with
    spawning := true
    trapped_steps := GHOST_TRAPPED_STEPS g.color
    fright_steps := 0
    loc := EMPTY_LOC
    next_loc := GHOST_SPAWN_LOCS g.color }

/-- `GhostState::respawn` from `ghost_helpers.rs`. -/
def respawn (g : GhostState) : GhostState :=
  let spawn :=
    if g.color = .Red then (GHOST_SPAWN_LOCS .Pink).get_coords
    else (GHOST_SPAWN_LOCS g.color).get_coords
  { g with
    spawning := true
    eaten := true
    loc := EMPTY_LOC
    next_loc := { g.next_loc.update_coords spawn with dir := .Up } }

/-- `GhostState::update` from `ghost_helpers.rs` (order of effects preserved:
spawning cleared first, then the eaten flag, then fright decrement, then the
move to the planned location). -/
def update (g : GhostState) : GhostState :=
  let g :=
    if (g.loc.collides_with (GHOST_SPAWN_LOCS .Red)) && (g.loc.dir ≠ .Down) then
      { g with spawning := false }
    else g
  let g :=
    if g.eaten then { g with eaten := false, fright_steps := 0 } else g
  let g :=
    if g.is_frightened then { g with fright_steps := g.fright_steps - 1 } else g
  { g with loc := g.next_loc }

end GhostState

/-- `get_bit_u32` from `game_helpers.rs`. -/
def get_bit_u32 (num : Nat) (bit_idx : Nat) : Bool :=
  ((num >>> bit_idx) &&& 1) == 1

/-- `modify_bit_u32` from `game_helpers.rs`; the complement `!(1 << i)` is a
32-bit complement, i.e. xor with the all-ones word. -/
def modify_bit_u32 (num : Nat) (bit_idx : Nat) (bit_val : Bool) : Nat :=
  if bit_val then num ||| (1 <<< bit_idx)
  else num &&& (0xffffffff ^^^ (1 <<< bit_idx))

/-- `GameState` from `game_state.rs`.  The ghost array is a function from the
index space `Fin 4`; `pellets` and `walls` are the row lists (length 31 in
every state the Rust code can build). -/
structure GameState where
  curr_ticks : Nat
  update_period : Nat
  mode : GameMode
  paused : Bool
  mode_steps : Nat
  level_steps : Nat
  curr_score : Nat
  curr_level : Nat
  curr_lives : Nat
  pacman_loc : LocationState
  fruit_loc : LocationState
  fruit_steps : Nat
  ghosts : Fin 4 → GhostState
  ghost_combo : Nat
  pellets : List Nat
  num_pellets : Nat
  walls : List Nat
  seed : Nat

/-- Build the ghost array from its four entries (`array_init` order). -/
def mkGhosts (a b c d : GhostState) : Fin 4 → GhostState
  | ⟨0, _⟩ => a
  | ⟨1, _⟩ => b
  | ⟨2, _⟩ => c
  | ⟨3, _⟩ => d

/-- Replace one entry of the ghost array. -/
def setGhost (s : GameState) (i : Fin 4) (g : GhostState) : GameState :=
  { s with ghosts := Function.update s.ghosts i g }

namespace GameState

/-- `GameState::new_with_seed` from `game_state.rs`. -/
def new_with_seed (seed : Nat) : GameState where
  curr_ticks := 0
  update_period := INIT_UPDATE_PERIOD
  mode := INIT_MODE
  paused := true
  mode_steps := INIT_MODE.duration
  level_steps := LEVEL_DURATION
  curr_score := 0
  curr_level := INIT_LEVEL
  curr_lives := INIT_LIVES
  pacman_loc := PACMAN_SPAWN_LOC
  fruit_loc := FRUIT_SPAWN_LOC
  fruit_steps := 0
  ghosts := mkGhosts (.new .Red) (.new .Pink) (.new .Cyan) (.new .Orange)
  ghost_combo := 0
  pellets := INIT_PELLETS
  num_pellets := INIT_PELLET_COUNT
  walls := INIT_WALLS
  seed := seed

/-- `GameState::next_tick` (`curr_ticks` is a `u32`). -/
def next_tick (s : GameState) : GameState :=
  { s with curr_ticks := (s.curr_ticks + 1) % 2 ^ 32 }

/-- `GameState::update_ready` from `game_helpers.rs`.  The Rust `%` panics when
`update_period = 0`; the panic is modelled as `none`. -/
def update_ready? (s : GameState) : Option Bool :=
  if s.update_period = 0 then none
  else some (s.curr_ticks % s.update_period == 0)

/-- `GameState::in_bounds` from `game_helpers.rs`. -/
def in_bounds (_s : GameState) (pos : Position) : Bool :=
  (pos.1 ≥ 0 && pos.1 < (MAZE_ROWS : Int)) && (pos.2 ≥ 0 && pos.2 < (MAZE_COLS : Int))

/-- `GameState::pellet_at` from `game_helpers.rs`. -/
def pellet_at (s : GameState) (pos : Position) : Bool :=
  if ¬ s.in_bounds pos then false
  else get_bit_u32 (s.pellets.getD pos.1.toNat 0) pos.2.toNat

/-- `GameState::wall_at` from `game_helpers.rs`. -/
def wall_at (s : GameState) (pos : Position) : Bool :=
  if ¬ s.in_bounds pos then true
  else get_bit_u32 (s.walls.getD pos.1.toNat 0) pos.2.toNat

/-- `GameState::ghost_spawn_at` from `game_helpers.rs`. -/
def ghost_spawn_at (_s : GameState) (pos : Position) : Bool :=
  (13 ≤ pos.1 && pos.1 ≤ 14) && (11 ≤ pos.2 && pos.2 ≤ 15)

/-- `GameState::increment_score` (u16 saturating add). -/
def increment_score (s : GameState) (change : Nat) : GameState :=
  { s with curr_score := min (s.curr_score + change) 65535 }

/-- `GameState::set_update_period` (the log message is ignored). -/
def set_update_period (s : GameState) (period : Nat) : GameState :=
  { s with update_period := period }

/-- `GameState::set_level`: stores the level and recomputes the update period
as `max(1, INIT_UPDATE_PERIOD - 2*(level-1))` in `i32`, cast back to `u8`
(the result lies in `[1, 14]`, so the cast is exact). -/
def set_level (s : GameState) (level : Nat) : GameState :=
  let suggested_period : Int := (INIT_UPDATE_PERIOD : Int) - 2 * ((level : Int) - 1)
  (({ s with curr_level := level } : GameState).set_update_period
    (max 1 suggested_period).toNat)

/-- `GameState::increment_level`. -/
def increment_level (s : GameState) : GameState :=
  if s.curr_level = 255 then s else s.set_level (s.curr_level + 1)

/-- `GameState::decrement_lives` (no-op at zero). -/
def decrement_lives (s : GameState) : GameState :=
  if s.curr_lives = 0 then s else { s with curr_lives := s.curr_lives - 1 }

/-- `GameState::decrement_num_pellets`. -/
def decrement_num_pellets (s : GameState) : GameState :=
  if s.num_pellets ≠ 0 then { s with num_pellets := s.num_pellets - 1 } else s

/-- `GameState::reset_pellets`. -/
def reset_pellets (s : GameState) : GameState :=
  { s with pellets := INIT_PELLETS, num_pellets := INIT_PELLET_COUNT }

/-- `GameState::fruit_exists`. -/
def fruit_exists (s : GameState) : Bool :=
  s.fruit_steps > 0

/-- `GameState::set_fruit_steps`. -/
def set_fruit_steps (s : GameState) (steps : Nat) : GameState :=
  { s with fruit_steps := steps }

/-- `GameState::decrement_fruit_steps`. -/
def decrement_fruit_steps (s : GameState) : GameState :=
  if s.fruit_steps ≠ 0 then { s with fruit_steps := s.fruit_steps - 1 } else s

/-- `GameState::set_level_steps`. -/
def set_level_steps (s : GameState) (steps : Nat) : GameState :=
  { s with level_steps := steps }

/-- `GameState::decrement_level_steps`. -/
def decrement_level_steps (s : GameState) : GameState :=
  if s.level_steps ≠ 0 then { s with level_steps := s.level_steps - 1 } else s

/-- `GameState::set_mode_steps` (from the mode-steps helpers). -/
def set_mode_steps (s : GameState) (steps : Nat) : GameState :=
  { s with mode_steps := steps }

/-- `GameState::decrement_mode_steps`. -/
def decrement_mode_steps (s : GameState) : GameState :=
  if s.mode_steps ≠ 0 then { s with mode_steps := s.mode_steps - 1 } else s

/-- `GameState::frighten_all_ghosts` from `game_helpers.rs`. -/
def frighten_all_ghosts (s : GameState) : GameState :=
  { s with
    ghost_combo := 0
    ghosts := fun i =>
      let g := s.ghosts i
      let g := { g with fright_steps := GHOST_FRIGHT_STEPS }
      if ¬ g.is_trapped then { g with trapped_steps := 1 } else g }

/-- `GameState::reverse_all_ghosts` from `game_helpers.rs`. -/
def reverse_all_ghosts (s : GameState) : GameState :=
  { s with
    ghosts := fun i =>
      let g := s.ghosts i
      if ¬ g.is_trapped then { g with trapped_steps := 1 } else g }

/-- `GameState::reset_all_ghosts` from `game_helpers.rs`. -/
def reset_all_ghosts (s : GameState) : GameState :=
  let s := { s with ghost_combo := 0, ghosts := fun i => (s.ghosts i).reset }
  if s.curr_lives = 0 then
    { s with
      ghosts := fun i =>
        let g := s.ghosts i
        if g.color ≠ .Orange then { g with next_loc := { g.next_loc with dir := .Stay } }
        else { g with next_loc := { g.next_loc with dir := .Left } } }
  else s

/-- `GameState::update_all_ghosts` from `game_helpers.rs`. -/
def update_all_ghosts (s : GameState) : GameState :=
  { s with ghosts := fun i => (s.ghosts i).update }

/-- `GameState::try_respawn_pacman` from `game_helpers.rs`. -/
def try_respawn_pacman (s : GameState) : GameState :=
  if s.pacman_loc.is_empty && s.curr_lives > 0 then
    { s with pacman_loc := PACMAN_SPAWN_LOC }
  else s

/-- `GameState::death_reset` from `game_helpers.rs`. -/
def death_reset (s : GameState) : GameState :=
  let s := { s with pacman_loc := EMPTY_LOC }
  let s := s.decrement_lives
  let s :=
    if s.num_pellets > ANGER_THRESHOLD1 then
      (({ s with mode := INIT_MODE } : GameState).set_mode_steps INIT_MODE.duration)
    else s
  let s := s.set_fruit_steps 0
  s.reset_all_ghosts

/-- `GameState::level_reset` from `game_helpers.rs`. -/
def level_reset (s : GameState) : GameState :=
  let s := { s with pacman_loc := EMPTY_LOC }
  let s := ({ s with mode := INIT_MODE } : GameState).set_mode_steps INIT_MODE.duration
  let s := s.set_level_steps LEVEL_DURATION
  let s := s.set_fruit_steps 0
  let s := s.reset_all_ghosts
  s.reset_pellets

/-- `GameState::collect_pellet` from `game_helpers.rs`.  The shift-free parts
track the source line by line; the u16 score additions saturate. -/
def collect_pellet (s : GameState) (pos : Position) : GameState :=
  let s :=
    if s.fruit_exists && s.pacman_loc.collides_with s.fruit_loc then
      (s.set_fruit_steps 0).increment_score FRUIT_POINTS
    else s
  if ¬ s.pellet_at pos then s
  else
    let s :=
      { s with pellets := (s.pellets.set pos.1.toNat
          (modify_bit_u32 (s.pellets.getD pos.1.toNat 0) pos.2.toNat false)) }
    let s := s.decrement_num_pellets
    let super_pellet := is_super_pellet (pos.1, pos.2)
    let s := if super_pellet then s.frighten_all_ghosts else s
    let s :=
      if super_pellet then s.increment_score SUPER_PELLET_POINTS
      else s.increment_score PELLET_POINTS
    let num_pellets := s.num_pellets
    let s :=
      if ¬ s.fruit_exists && (num_pellets = FRUIT_THRESHOLD1 ∨ num_pellets = FRUIT_THRESHOLD2)
      then s.set_fruit_steps FRUIT_DURATION
      else s
    if num_pellets = ANGER_THRESHOLD1 ∨ num_pellets = ANGER_THRESHOLD2 then
      let s := s.set_update_period (max 1 (s.update_period - 2))
      (({ s with mode := GameMode.CHASE } : GameState).set_mode_steps GameMode.CHASE.duration)
    else if num_pellets = 0 then
      s.level_reset.increment_level
    else s

/-- One iteration of the ghost scan in `GameState::check_collisions`:
threads (state, number eaten, pacman-died flag); a set died flag models the
`break`. -/
def ccLoop (pac : LocationState) : List (Fin 4) → GameState → Nat → GameState × Nat × Bool
  | [], s, n => (s, n, false)
  | i :: rest, s, n =>
    let g := s.ghosts i
    if pac.collides_with g.loc then
      if g.eaten then ccLoop pac rest s n
      else if g.is_frightened then ccLoop pac rest (setGhost s i g.respawn) (n + 1)
      else (s, n, true)
    else ccLoop pac rest s n

/-- The award loop of `GameState::check_collisions`: for each eaten ghost,
`increment_score(COMBO_MULTIPLIER << ghost_combo)` and bump the combo.  The
u16 shift uses release-mode semantics (shift amount masked to 4 bits, result
truncated); `ghost_combo` is a wrapping `u8`. -/
def awards : Nat → GameState → GameState
  | 0, s => s
  | n + 1, s =>
    let s := s.increment_score ((COMBO_MULTIPLIER * 2 ^ (s.ghost_combo % 16)) % 65536)
    awards n { s with ghost_combo := (s.ghost_combo + 1) % 256 }

/-- `GameState::check_collisions` from `game_helpers.rs`. -/
def check_collisions (s : GameState) : GameState :=
  let r := ccLoop s.pacman_loc [0, 1, 2, 3] s 0
  if r.2.2 then r.1.death_reset else awards r.2.1 r.1

/-- `GameState::get_chase_target_red` from `game_helpers.rs`. -/
def get_chase_target_red (s : GameState) : Position :=
  s.pacman_loc.get_coords

/-- `GameState::get_chase_target_pink` from `game_helpers.rs`. -/
def get_chase_target_pink (s : GameState) : Position :=
  s.pacman_loc.get_ahead_coords 4

/-- `GameState::get_chase_target_cyan` from `game_helpers.rs`. -/
def get_chase_target_cyan (s : GameState) : Position :=
  let pivot := s.pacman_loc.get_ahead_coords 2
  let red := (s.ghosts 0).loc.get_coords
  (2 * pivot.1 - red.1, 2 * pivot.2 - red.2)

/-- `GameState::get_chase_target_orange` from `game_helpers.rs`. -/
def get_chase_target_orange (s : GameState) : Position :=
  let pacman_pos := s.pacman_loc.get_coords
  let orange_pos := (s.ghosts 3).loc.get_coords
  if dist_sq orange_pos pacman_pos ≥ 64 then pacman_pos
  else (s.ghosts 3).scatter_target.get_coords

/-- `GameState::get_chase_target` from `game_helpers.rs`. -/
def get_chase_target (s : GameState) (color : GhostColor) : Position :=
  match color with
  | .Red => s.get_chase_target_red
  | .Pink => s.get_chase_target_pink
  | .Cyan => s.get_chase_target_cyan
  | .Orange => s.get_chase_target_orange

end GameState

/-- Outcome of one iteration of the loop in `GameState::plan_all_ghosts`:
`panic` is the `expect` failure, `stop` an early `return` (carrying the ghost
as updated so far), `next` a completed iteration (carrying the updated ghost
and the new seed). -/
inductive PlanOut where
  | panic
  | stop (g : GhostState)
  | next (g : GhostState) (seed : Nat)

namespace GameState

/-- The valid-move filter of `plan_all_ghosts` (the closure over `moves`). -/
def validMove (s : GameState) (g : GhostState) (dir : Direction) (loc : Position) : Bool :=
  if dir = g.next_loc.dir.opposite then false
  else if g.spawning && s.ghost_spawn_at loc then true
  else if g.spawning && (loc = GHOST_HOUSE_EXIT_POS : Bool) then true
  else ¬ s.wall_at loc

/-- Pick the first element minimizing `key` (Rust `Iterator::min_by_key`
returns the first minimum). -/
def firstMinBy (key : Direction × Position → Nat) :
    List (Direction × Position) → Option (Direction × Position)
  | [] => none
  | x :: xs =>
    match firstMinBy key xs with
    | none => some x
    | some y => if key x ≤ key y then some x else some y

/-- The body of the loop in `GameState::plan_all_ghosts` for ghost index `i`
(from `game_helpers.rs`).  All reads go through the current state `s`; the
random choice for frightened ghosts is delegated to the `rng` oracle (the
Rust code uses the external `rand::SmallRng`, seeded from `s.seed` and then
re-drawn into the seed). -/
def planGhost (rng : Nat → Nat → Nat × Nat) (s : GameState) (i : Fin 4) : PlanOut :=
  let g := s.ghosts i
  let chase_target := s.get_chase_target g.color
  if g.loc.is_empty then .stop g
  else
    let g := { g with next_loc := g.next_loc.advance_from g.loc }
    if g.is_trapped then
      .stop { g with
        next_loc := { g.next_loc with dir := g.next_loc.dir.opposite }
        trapped_steps := g.trapped_steps - 1 }
    else
      let target_loc :=
        if g.spawning && ¬ g.loc.collides_with (GHOST_SPAWN_LOCS .Red)
            && ¬ g.next_loc.collides_with (GHOST_SPAWN_LOCS .Red) then
          (GHOST_SPAWN_LOCS .Red).get_coords
        else
          match s.mode with
          | .CHASE => chase_target
          | .SCATTER => g.scatter_target.get_coords
      let moves := Direction.all_except_stay.map fun dir =>
        (dir, g.next_loc.get_neighbor_coords dir)
      let valid_moves := moves.filter fun m => validMove s g m.1 m.2
      if g.fright_steps > 1 then
        match valid_moves with
        | [] => .panic
        | m :: ms =>
          let r := rng s.seed (valid_moves.length)
          let chosen := (m :: ms).getD (r.1 % (m :: ms).length) m
          .next { g with next_loc := { g.next_loc with dir := chosen.1 } } r.2
      else
        match firstMinBy (fun m => dist_sq m.2 target_loc) valid_moves with
        | none => .panic
        | some m => .next { g with next_loc := { g.next_loc with dir := m.1 } } s.seed

/-- The loop of `GameState::plan_all_ghosts` over the ghost indices; an early
`return` in the Rust loop ends the whole function (this is the observed,
possibly unintended, behavior — see the claims about planning). -/
def planLoop (rng : Nat → Nat → Nat × Nat) : List (Fin 4) → GameState → Option GameState
  | [], s => some s
  | i :: rest, s =>
    match planGhost rng s i with
    | .panic => none
    | .stop g => some (setGhost s i g)
    | .next g seed => planLoop rng rest { setGhost s i g with seed := seed }

/-- `GameState::plan_all_ghosts` from `game_helpers.rs`; `none` models the
`expect("ghost has no valid moves!")` panic. -/
def plan_all_ghosts (rng : Nat → Nat → Nat × Nat) (s : GameState) : Option GameState :=
  planLoop rng [0, 1, 2, 3] s

/-- `GameState::handle_step_events` from `game_state.rs`. -/
def handle_step_events (s : GameState) : GameState :=
  let s :=
    if s.mode_steps = 0 then
      let s :=
        match s.mode with
        | .CHASE =>
          (({ s with mode := GameMode.SCATTER } : GameState).set_mode_steps
            GameMode.SCATTER.duration)
        | .SCATTER =>
          (({ s with mode := GameMode.CHASE } : GameState).set_mode_steps
            GameMode.CHASE.duration)
      s.reverse_all_ghosts
    else s
  let s :=
    if s.level_steps = 0 then
      (s.set_update_period (max 1 (s.update_period - 2))).set_level_steps
        LEVEL_PENALTY_DURATION
    else s
  let s := if s.num_pellets ≥ ANGER_THRESHOLD1 then s.decrement_mode_steps else s
  let s := s.decrement_level_steps
  s.decrement_fruit_steps

/-- `GameState::step` from `game_state.rs`; `none` models a panic (division by
zero in `update_ready` or the planner's `expect`). -/
def step (rng : Nat → Nat → Nat × Nat) (s : GameState) : Option GameState := do
  let lives_before := s.curr_lives
  let s := s.next_tick
  let r1 ← s.update_ready?
  let s :=
    if r1 then (((s.update_all_ghosts).try_respawn_pacman).check_collisions).handle_step_events
    else s
  let r2 ← s.update_ready?
  let s ← if r2 then s.plan_all_ghosts rng else some s
  some (if s.curr_lives < lives_before then { s with paused := true } else s)

end GameState

/-! ### Wire codec (`to_bytes` / `from_bytes` from `game_state.rs`) -/

/-- Decode failure: `io` is the `io::Error` of a failed `read_exact`, `panic`
models `unreachable!()` and the planner's `expect`. -/
inductive DErr where
  | io
  | panic
deriving DecidableEq

/-- Big-endian bytes of a `u16` (`to_be_bytes`). -/
def u16be (x : Nat) : List Nat :=
  [x / 256 % 256, x % 256]

/-- Big-endian bytes of a `u32` (`to_be_bytes`). -/
def u32be (x : Nat) : List Nat :=
  [x / 2 ^ 24 % 256, x / 2 ^ 16 % 256, x / 2 ^ 8 % 256, x % 256]

/-- `u32::count_ones`. -/
def countOnes32 (x : Nat) : Nat :=
  ((List.range 32).filter fun i => x.testBit i).length

/-- Two's-complement 2-bit encoding of the row component of a direction
vector (-1 ↦ 3, 0 ↦ 0, 1 ↦ 1). -/
def rowDirBits : Direction → Nat
  | .Up => 3
  | .Down => 1
  | _ => 0

/-- Two's-complement 2-bit encoding of the column component of a direction
vector. -/
def colDirBits : Direction → Nat
  | .Left => 3
  | .Right => 1
  | _ => 0

/-- Modelled from the spec: `LocationState::to_bytes` is called by
`game_state.rs` but is not under `src/`.  Spec section 6 item 9: a packed
position is 2 bytes, "6 bits coordinate + 2-bit direction-delta per axis";
the comment on `EMPTY_LOC` in `variables.rs` confirms that (32, 32, Stay)
serializes to the bytes 0b00100000 0b00100000.  Taking an `i8` modulo 64
yields its low six bits. -/
def LocationState.to_bytes (l : LocationState) : List Nat :=
  [rowDirBits l.dir * 64 + (l.row % 64).toNat, colDirBits l.dir * 64 + (l.col % 64).toNat]

/-- Modelled from the spec: `LocationState::from_bytes` is called by
`game_state.rs` but is not under `src/`.  Following the analogous
`LocationState::update` in `location.rs`, only the low six bits of each byte
are recovered as the coordinate; the direction bits are not reconstructed
(they are commented out with a to-do note in `update`), so the direction
defaults to `Stay`. -/
def LocationState.from_bytes (b0 b1 : Nat) : LocationState :=
  ⟨(b0 % 64 : Nat), (b1 % 64 : Nat), .Stay⟩

/-- The ghost block of `GameState::to_bytes`: packed location plus the
auxiliary byte. -/
def ghostBytes (g : GhostState) : List Nat :=
  g.loc.to_bytes ++ [g.get_aux]

/-- The mode/pause byte written by `GameState::to_bytes`. -/
def modeByte (mode : GameMode) (paused : Bool) : Nat :=
  match mode, paused with
  | _, true => 0
  | .SCATTER, false => 1
  | .CHASE, false => 2

/-- The informational mode-duration byte written by `GameState::to_bytes`. -/
def modeDurationByte (mode : GameMode) (paused : Bool) : Nat :=
  match mode, paused with
  | .SCATTER, false => GameMode.SCATTER.duration
  | .CHASE, false => GameMode.CHASE.duration
  | _, true => 255

/-- `GameState::to_bytes` from `game_state.rs`, producing the byte list in
source order (the 31 pellet words are the flattened big-endian words). -/
def GameState.to_bytes (s : GameState) : List Nat :=
  u16be (s.curr_ticks % 65536)
    ++ [s.update_period, modeByte s.mode s.paused, s.mode_steps,
        modeDurationByte s.mode s.paused]
    ++ u16be s.curr_score
    ++ [s.curr_level, s.curr_lives]
    ++ ghostBytes (s.ghosts 0) ++ ghostBytes (s.ghosts 1)
    ++ ghostBytes (s.ghosts 2) ++ ghostBytes (s.ghosts 3)
    ++ s.pacman_loc.to_bytes
    ++ s.fruit_loc.to_bytes ++ [s.fruit_steps, FRUIT_DURATION]
    ++ (s.pellets.map u32be).flatten

/-- The mode byte match in `GameState::from_bytes`; a value other than
0, 1, 2 hits `unreachable!()`, i.e. panics. -/
def modeParse (m : Nat) : Except DErr (GameMode × Bool) :=
  if m = 0 then .ok (.CHASE, true)
  else if m = 1 then .ok (.SCATTER, false)
  else if m = 2 then .ok (.CHASE, false)
  else .error .panic

/-- One `get_u32(...).unwrap_or(0)` read of the pellet section: a truncated
read yields 0 and exhausts the cursor. -/
def readU32D : List Nat → Nat × List Nat
  | a :: b :: c :: d :: rest => (((a * 256 + b) * 256 + c) * 256 + d, rest)
  | _ => (0, [])

/-- The pellet section of `GameState::from_bytes`: 31 defaulting u32 reads. -/
def decodePellets : Nat → List Nat → List Nat
  | 0, _ => []
  | n + 1, l => (readU32D l).1 :: decodePellets n (readU32D l).2

/-- `GameState::from_bytes` from `game_state.rs`.  The sequential
`get_u8`/`get_u16` reads (which fail only at end of input, with an I/O error)
are grouped into list patterns: the first four bytes, then — after the mode
byte is decoded, where an invalid discriminant panics before anything further
is read — the remaining 24 mandatory bytes; this grouping returns exactly the
same result as the byte-by-byte cursor.  Ghost blocks pass a single auxiliary
byte (the source's 3-argument call), so `aux2 = 0`.  The trailing pellet
reads default to 0 instead of failing, and the function ends by running
`plan_all_ghosts` (whose `expect` may panic). -/
def GameState.from_bytes (rng : Nat → Nat → Nat × Nat) (bytes : List Nat) (seed : Nat) :
    Except DErr GameState :=
  match bytes with
  | t0 :: t1 :: up :: mb :: rest =>
    match modeParse mb with
    | .error e => .error e
    | .ok mp =>
      match rest with
      | ms :: _md :: sc0 :: sc1 :: lvl :: lvs ::
          ga0 :: ga1 :: ga2 :: gb0 :: gb1 :: gb2 ::
          gc0 :: gc1 :: gc2 :: gd0 :: gd1 :: gd2 ::
          p0 :: p1 :: f0 :: f1 :: fs :: _fd :: pbytes =>
        let pellets := decodePellets 31 pbytes
        let s : GameState :=
          { curr_ticks := t0 * 256 + t1
            update_period := up
            mode := mp.1
            paused := mp.2
            mode_steps := ms
            level_steps := 0
            curr_score := sc0 * 256 + sc1
            curr_level := lvl
            curr_lives := lvs
            pacman_loc := LocationState.from_bytes p0 p1
            fruit_loc := LocationState.from_bytes f0 f1
            fruit_steps := fs
            ghosts := mkGhosts
              (GhostState.from_bytes .Red (LocationState.from_bytes ga0 ga1) ga2 0)
              (GhostState.from_bytes .Pink (LocationState.from_bytes gb0 gb1) gb2 0)
              (GhostState.from_bytes .Cyan (LocationState.from_bytes gc0 gc1) gc2 0)
              (GhostState.from_bytes .Orange (LocationState.from_bytes gd0 gd1) gd2 0)
            ghost_combo := 0
            pellets := pellets
            num_pellets := (pellets.map countOnes32).sum
            walls := INIT_WALLS
            seed := seed }
        match s.plan_all_ghosts rng with
        | none => .error .panic
        | some s2 => .ok s2
      | _ => .error .io
  | _ => .error .io

/-- States reachable from a fresh game (`new_with_seed`) by iterating `step`
under any sequence of random oracles. -/
inductive Reachable : GameState → Prop
  | init (seed : Nat) : Reachable (GameState.new_with_seed seed)
  | stepR {s s' : GameState} (rng : Nat → Nat → Nat × Nat) :
      Reachable s → GameState.step rng s = some s' → Reachable s'

/-! ### Shared objects for the theorems -/

/-- A fresh game with seed 0, shared by several concrete test states. -/
def initS : GameState := GameState.new_with_seed 0

/-- A deterministic random oracle (always picks choice 0, keeps the seed);
used to instantiate the `rng` parameter at concrete inputs. -/
def rngDet : Nat → Nat → Nat × Nat := fun sd _ => (0, sd)

theorem setGhost_ghosts_ne (s : GameState) (i k : Fin 4) (g : GhostState) (h : k ≠ i) :
    (setGhost s i g).ghosts k = s.ghosts k := by
  simp [setGhost, Function.update_noteq h]

theorem setGhost_fields (s : GameState) (i : Fin 4) (g : GhostState) :
    (setGhost s i g).curr_score = s.curr_score
    ∧ (setGhost s i g).ghost_combo = s.ghost_combo
    ∧ (setGhost s i g).pacman_loc = s.pacman_loc := by
  exact ⟨rfl, rfl, rfl⟩

/-! ### C8: `collides_with` -/

/-- C8: `collides_with(a, b)` returns true iff the two positions' rows and
columns are equal and all four coordinates are below 32 (the valid range in
the sense of the claim's own parenthetical: a coordinate at or above 32 is
out of range); in particular a position with any coordinate ≥ 32 — such as
the sentinel (32, 32) — never collides with anything, in either argument
position. -/
theorem collides_with_spec (a b : LocationState) :
    (a.collides_with b = true ↔
      a.row = b.row ∧ a.col = b.col ∧ a.row < 32 ∧ a.col < 32 ∧ b.row < 32 ∧ b.col < 32)
    ∧ (32 ≤ a.row ∨ 32 ≤ a.col →
        a.collides_with b = false ∧ b.collides_with a = false) := by
  unfold LocationState.collides_with
  constructor
  · split_ifs with h
    · simp only [Bool.or_eq_true, decide_eq_true_eq] at h
      simp only [Bool.false_eq_true, false_iff]
      omega
    · simp only [Bool.or_eq_true, decide_eq_true_eq, not_or, not_le] at h
      simp only [Bool.and_eq_true, beq_iff_eq]
      omega
  · intro hge
    constructor
    · split_ifs with h
      · rfl
      · simp only [Bool.or_eq_true, decide_eq_true_eq, not_or, not_le] at h
        omega
    · split_ifs with h
      · rfl
      · simp only [Bool.or_eq_true, decide_eq_true_eq, not_or, not_le] at h
        omega

/-- C8 witness: concrete instance of `collides_with_spec`, the sentinel never
collides with itself and a genuine on-board coincidence does collide. -/
theorem collides_with_spec_witness :
    EMPTY_LOC.collides_with EMPTY_LOC = false
    ∧ (PACMAN_SPAWN_LOC.collides_with ⟨23, 13, .Down⟩ = true) := by
  refine ⟨((collides_with_spec EMPTY_LOC EMPTY_LOC).2 (by decide)).1, ?_⟩
  exact (collides_with_spec PACMAN_SPAWN_LOC ⟨23, 13, .Down⟩).1.mpr (by decide)

/-! ### C2: Orange's chase target -/

/-- Concrete state for the C2 counterexample: the player stands at (1, 1) and
the Orange ghost (index 3) at (20, 20), squared distance 722 ≥ 64. -/
def sC2 : GameState :=
  setGhost { initS with pacman_loc := ⟨1, 1, .Up⟩ } 3
    { initS.ghosts 3 with loc := ⟨20, 20, .Up⟩ }

/-- C2 counterexample: with Orange far from the player (squared distance
722 ≥ 64) the code targets the *player's* position (1, 1), not Orange's
scatter position (31, 0) as the claim asserts for that case; the claim's
direction of the distance test is inverted. -/
theorem get_chase_target_orange_counterexample :
    64 ≤ dist_sq ((sC2.ghosts 3).loc.get_coords) (sC2.pacman_loc.get_coords)
    ∧ sC2.get_chase_target .Orange = sC2.pacman_loc.get_coords
    ∧ sC2.get_chase_target .Orange ≠ ((sC2.ghosts 3).scatter_target.get_coords) := by
  refine ⟨by decide, by decide, by decide⟩

/-- C2 amended: in Chase mode the target computed for Orange is the player's
position when Orange's squared Euclidean distance to the player is at least
64, and Orange's own fixed scatter position otherwise (the opposite
arrangement of the claim). -/
theorem get_chase_target_orange_spec (s : GameState) :
    s.get_chase_target_orange =
      if 64 ≤ dist_sq ((s.ghosts 3).loc.get_coords) (s.pacman_loc.get_coords)
      then s.pacman_loc.get_coords
      else (s.ghosts 3).scatter_target.get_coords := by
  rfl

/-! ### C7: `collect_pellet` at an empty cell -/

/-- Concrete state for the C7 counterexample: fruit present (countdown 5) and
the player standing on the fruit at (17, 13); cell (0, 0) has no pellet. -/
def sC7 : GameState := { initS with fruit_steps := 5, pacman_loc := ⟨17, 13, .Stay⟩ }

/-- C7 counterexample: with fruit present and the player on the fruit,
`collect_pellet` at the pellet-free cell (0, 0) changes the score from 0 to
100 (fruit points) — the claim's "leaves the score unchanged" fails. -/
theorem collect_pellet_empty_cell_counterexample :
    sC7.pellet_at (0, 0) = false
    ∧ sC7.curr_score = 0
    ∧ (sC7.collect_pellet (0, 0)).curr_score = 100 := by
  refine ⟨by decide, by decide, by decide⟩

/-- `collect_pellet` at a cell with no pellet reduces to the fruit check
alone. -/
theorem collect_pellet_no_pellet (s : GameState) (pos : Position)
    (hp : s.pellet_at pos = false) :
    s.collect_pellet pos =
      if s.fruit_exists && s.pacman_loc.collides_with s.fruit_loc
      then (s.set_fruit_steps 0).increment_score FRUIT_POINTS
      else s := by
  have hx : ((s.set_fruit_steps 0).increment_score FRUIT_POINTS).pellet_at pos = false := hp
  simp only [GameState.collect_pellet]
  by_cases hc : (s.fruit_exists && s.pacman_loc.collides_with s.fruit_loc) = true
  · rw [if_pos hc, if_pos (by simp [hx])]
  · rw [if_neg hc, if_pos (by simp [hp])]

/-- C7 amended: at a cell with no pellet bit set, `collect_pellet` never
changes the pellet grid or the remaining-pellet count; the score is unchanged
provided the independent fruit side effect does not fire (no fruit, or the
player not on the fruit); and the call is idempotent — a second call at the
same empty cell returns the state of the first call unchanged. -/
theorem collect_pellet_empty_cell_spec (s : GameState) (pos : Position)
    (hp : s.pellet_at pos = false) :
    (s.collect_pellet pos).num_pellets = s.num_pellets
    ∧ (s.collect_pellet pos).pellets = s.pellets
    ∧ ((s.fruit_exists && s.pacman_loc.collides_with s.fruit_loc) = false →
        s.collect_pellet pos = s)
    ∧ (s.collect_pellet pos).collect_pellet pos = s.collect_pellet pos := by
  have hchar := collect_pellet_no_pellet s pos hp
  by_cases hc : (s.fruit_exists && s.pacman_loc.collides_with s.fruit_loc) = true
  · rw [hchar, if_pos hc]
    have hx : ((s.set_fruit_steps 0).increment_score FRUIT_POINTS).pellet_at pos = false := hp
    have hchar2 := collect_pellet_no_pellet _ pos hx
    have hfe : (((s.set_fruit_steps 0).increment_score FRUIT_POINTS).fruit_exists
        && ((s.set_fruit_steps 0).increment_score
          FRUIT_POINTS).pacman_loc.collides_with
          ((s.set_fruit_steps 0).increment_score FRUIT_POINTS).fruit_loc) = false := by
      have : ((s.set_fruit_steps 0).increment_score FRUIT_POINTS).fruit_exists = false := rfl
      rw [this, Bool.false_and]
    rw [hchar2, if_neg (by rw [hfe]; exact Bool.false_ne_true)]
    exact ⟨rfl, rfl, fun hcf => absurd hc (by simp [hcf]), rfl⟩
  · have hcf : (s.fruit_exists && s.pacman_loc.collides_with s.fruit_loc) = false := by
      simpa using hc
    rw [hchar, if_neg hc, hchar, if_neg hc]
    exact ⟨rfl, rfl, fun _ => rfl, rfl⟩

/-- C7 witness: `collect_pellet_empty_cell_spec` applied at the fresh game and
the pellet-free cell (0, 0). -/
theorem collect_pellet_empty_cell_spec_witness :
    (initS.collect_pellet (0, 0)).num_pellets = initS.num_pellets
    ∧ initS.collect_pellet (0, 0) = initS := by
  have h := collect_pellet_empty_cell_spec initS (0, 0) (by decide)
  exact ⟨h.1, h.2.2.1 (by decide)⟩

/-! ### C10: the update period stays positive -/

theorem up_set_fruit_steps (s : GameState) (v : Nat) :
    (s.set_fruit_steps v).update_period = s.update_period := rfl

theorem up_increment_score (s : GameState) (c : Nat) :
    (s.increment_score c).update_period = s.update_period := rfl

theorem up_decrement_num_pellets (s : GameState) :
    s.decrement_num_pellets.update_period = s.update_period := by
  unfold GameState.decrement_num_pellets
  split <;> rfl

theorem up_frighten_all_ghosts (s : GameState) :
    s.frighten_all_ghosts.update_period = s.update_period := rfl

theorem up_reverse_all_ghosts (s : GameState) :
    s.reverse_all_ghosts.update_period = s.update_period := rfl

theorem up_set_mode_steps (s : GameState) (v : Nat) :
    (s.set_mode_steps v).update_period = s.update_period := rfl

theorem up_set_level_steps (s : GameState) (v : Nat) :
    (s.set_level_steps v).update_period = s.update_period := rfl

theorem up_reset_pellets (s : GameState) :
    s.reset_pellets.update_period = s.update_period := rfl

theorem up_decrement_lives (s : GameState) :
    s.decrement_lives.update_period = s.update_period := by
  unfold GameState.decrement_lives
  split <;> rfl

theorem up_reset_all_ghosts (s : GameState) :
    s.reset_all_ghosts.update_period = s.update_period := by
  simp only [GameState.reset_all_ghosts]
  split <;> rfl

theorem up_level_reset (s : GameState) :
    s.level_reset.update_period = s.update_period := by
  unfold GameState.level_reset
  rw [GameState.reset_pellets, GameState.set_level_steps, GameState.set_fruit_steps,
    GameState.set_mode_steps]
  simp only [up_reset_all_ghosts]

theorem up_decrement_mode_steps (s : GameState) :
    s.decrement_mode_steps.update_period = s.update_period := by
  unfold GameState.decrement_mode_steps
  split <;> rfl

theorem up_decrement_level_steps (s : GameState) :
    s.decrement_level_steps.update_period = s.update_period := by
  unfold GameState.decrement_level_steps
  split <;> rfl

theorem up_decrement_fruit_steps (s : GameState) :
    s.decrement_fruit_steps.update_period = s.update_period := by
  unfold GameState.decrement_fruit_steps
  split <;> rfl

theorem up_increment_level (s : GameState) :
    s.increment_level.update_period = s.update_period
    ∨ 1 ≤ s.increment_level.update_period := by
  unfold GameState.increment_level
  split_ifs
  · exact Or.inl rfl
  · right
    simp only [GameState.set_level, GameState.set_update_period]
    omega

theorem up_handle_step_events (s : GameState) :
    s.handle_step_events.update_period = s.update_period
    ∨ s.handle_step_events.update_period = max 1 (s.update_period - 2) := by
  unfold GameState.handle_step_events
  simp only [up_decrement_fruit_steps, up_decrement_level_steps, apply_ite
    GameState.update_period, up_decrement_mode_steps, up_set_level_steps,
    GameState.set_update_period, up_reverse_all_ghosts, up_set_mode_steps]
  split_ifs <;> cases s.mode <;> simp [up_reverse_all_ghosts, up_set_mode_steps]

theorem up_level_inc (t : GameState) (h : 1 ≤ t.update_period) :
    1 ≤ t.level_reset.increment_level.update_period := by
  rcases up_increment_level t.level_reset with hup | hup
  · rw [hup, up_level_reset]
    exact h
  · exact hup

theorem up_collect_pellet (s : GameState) (pos : Position) (h : 1 ≤ s.update_period) :
    1 ≤ (s.collect_pellet pos).update_period := by
  simp only [GameState.collect_pellet]
  have hfr : ∀ t : GameState,
      (if t.fruit_exists && t.pacman_loc.collides_with t.fruit_loc
        then (t.set_fruit_steps 0).increment_score FRUIT_POINTS
        else t).update_period = t.update_period := by
    intro t
    split <;> rfl
  split_ifs with h1 h2 h3 h4 h5 h6 h7 h8 h9 h10 h11 h12 h13 h14 h15
  all_goals try
    simp only [hfr, up_set_fruit_steps, up_increment_score, up_decrement_num_pellets,
      up_frighten_all_ghosts, up_set_mode_steps, GameState.set_update_period,
      apply_ite GameState.update_period]
  all_goals first
    | exact h
    | exact le_max_left 1 _
    | omega
    | exact up_level_inc _ (by
        simp only [up_set_fruit_steps, up_increment_score, up_decrement_num_pellets,
          up_frighten_all_ghosts]
        exact h)

/-- C10: with a positive update period, `update_ready` evaluates without the
division-by-zero panic, and every operation that modifies the period —
`set_level`, the long-game penalty inside `handle_step_events`, and the anger
speed-up inside `collect_pellet` — leaves it at least 1 (each of them floors
the new period at 1). -/
theorem update_period_floor (s : GameState) (pos : Position) (level : Nat) :
    (1 ≤ s.update_period → (s.update_ready?).isSome = true)
    ∧ 1 ≤ (s.set_level level).update_period
    ∧ (1 ≤ s.update_period → 1 ≤ s.handle_step_events.update_period)
    ∧ (1 ≤ s.update_period → 1 ≤ (s.collect_pellet pos).update_period) := by
  refine ⟨?_, ?_, ?_, fun h => up_collect_pellet s pos h⟩
  · intro h
    simp only [GameState.update_ready?]
    rw [if_neg (by omega)]
    rfl
  · simp only [GameState.set_level, GameState.set_update_period]
    omega
  · intro h
    rcases up_handle_step_events s with hup | hup <;> rw [hup] <;> omega

/-- C10 witness: `update_period_floor` at the fresh game (update period 12),
cell (0, 0) and level 200 (where the suggested period is negative and the
floor at 1 engages). -/
theorem update_period_floor_witness :
    ((initS.update_ready?).isSome = true) ∧ 1 ≤ (initS.set_level 200).update_period := by
  have h := update_period_floor initS (0, 0) 200
  exact ⟨h.1 (by decide), h.2.1⟩

/-! ### C9: an agent is never eaten and not-spawning -/

/-- The C9 invariant: a ghost that is eaten is also spawning. -/
def GhostInv (g : GhostState) : Prop :=
  g.eaten = true → g.spawning = true

theorem shiftRight7_and63 (x : Nat) : (x &&& 63) >>> 7 = 0 := by
  have hx : x &&& 63 ≤ 63 := Nat.and_le_right
  rw [Nat.shiftRight_eq_div_pow]
  omega

theorem shiftRight7_or128 (x : Nat) : ((x &&& 63) ||| 128) >>> 7 ≠ 0 := by
  have hx : 128 ≤ ((x &&& 63) ||| 128) := by
    have h128 : (128 : Nat).testBit 7 = true := by decide
    have : ((x &&& 63) ||| 128).testBit 7 = true := by
      rw [Nat.testBit_or, h128, Bool.or_true]
    simpa using Nat.testBit_implies_ge this
  rw [Nat.shiftRight_eq_div_pow]
  omega

theorem ghost_update_eaten (g : GhostState) : g.update.eaten = false := by
  simp only [GhostState.update]
  split_ifs with h1 h2 h3 <;> simp_all

/-- C9: every ghost operation — construction (`new`), respawn after being
eaten, reset, the per-tick `update`, and byte-level reconstruction
(`from_bytes` applied to the auxiliary bytes of an invariant-satisfying
ghost, or with the zero second auxiliary byte that the game-level decoder
passes) — yields a ghost satisfying "eaten implies spawning", so the
invariant holds in every reachable ghost state. -/
theorem ghost_eaten_implies_spawning (c : GhostColor) (l : LocationState)
    (g : GhostState) (aux : Nat) :
    GhostInv (GhostState.new c)
    ∧ GhostInv g.respawn
    ∧ GhostInv g.reset
    ∧ GhostInv g.update
    ∧ (GhostInv g → GhostInv (GhostState.from_bytes c l g.get_aux g.get_aux2))
    ∧ GhostInv (GhostState.from_bytes c l aux 0) := by
  refine ⟨?_, fun _ => rfl, fun _ => rfl, ?_, ?_, ?_⟩
  · intro h
    exact absurd h (by simp [GhostState.new])
  · intro h
    rw [ghost_update_eaten] at h
    cases h
  · intro hInv h
    have he : (GhostState.from_bytes c l g.get_aux g.get_aux2).eaten
        = decide ((g.get_aux2 >>> 7) ≠ 0) := rfl
    have hs : (GhostState.from_bytes c l g.get_aux g.get_aux2).spawning
        = decide ((g.get_aux >>> 7) ≠ 0) := rfl
    rw [he] at h
    rw [hs]
    by_cases hge : g.eaten = true
    · have hsp : g.spawning = true := hInv hge
      simp only [GhostState.get_aux, hsp, if_true]
      simp [shiftRight7_or128 g.fright_steps]
    · have : g.get_aux2 = g.trapped_steps &&& 63 := by
        simp [GhostState.get_aux2, hge]
      rw [this] at h
      simp [shiftRight7_and63] at h
  · intro h
    have he : (GhostState.from_bytes c l aux 0).eaten = decide ((0 >>> 7) ≠ 0) := rfl
    rw [he] at h
    simp at h

/-- C9 witness: `ghost_eaten_implies_spawning` instantiated for the red ghost
at its spawn location: a freshly respawned (eaten) ghost is spawning. -/
theorem ghost_eaten_implies_spawning_witness :
    (GhostState.new .Red).respawn.eaten = true
    ∧ (GhostState.new .Red).respawn.spawning = true := by
  have h := ghost_eaten_implies_spawning .Red EMPTY_LOC (GhostState.new .Red) 0
  exact ⟨rfl, h.2.1 rfl⟩

/-! ### C6: mode transition in `handle_step_events` -/

/-- The Scatter/Chase flip performed by `handle_step_events`. -/
def flipMode : GameMode → GameMode
  | .CHASE => .SCATTER
  | .SCATTER => .CHASE

theorem ghosts_set_update_period (s : GameState) (v : Nat) :
    (s.set_update_period v).ghosts = s.ghosts := rfl

theorem ghosts_set_level_steps (s : GameState) (v : Nat) :
    (s.set_level_steps v).ghosts = s.ghosts := rfl

theorem ghosts_set_mode_steps (s : GameState) (v : Nat) :
    (s.set_mode_steps v).ghosts = s.ghosts := rfl

theorem ghosts_decrement_mode_steps (s : GameState) :
    s.decrement_mode_steps.ghosts = s.ghosts := by
  unfold GameState.decrement_mode_steps
  split <;> rfl

theorem ghosts_decrement_level_steps (s : GameState) :
    s.decrement_level_steps.ghosts = s.ghosts := by
  unfold GameState.decrement_level_steps
  split <;> rfl

theorem ghosts_decrement_fruit_steps (s : GameState) :
    s.decrement_fruit_steps.ghosts = s.ghosts := by
  unfold GameState.decrement_fruit_steps
  split <;> rfl

theorem mode_set_update_period (s : GameState) (v : Nat) :
    (s.set_update_period v).mode = s.mode := rfl

theorem mode_set_level_steps (s : GameState) (v : Nat) :
    (s.set_level_steps v).mode = s.mode := rfl

theorem mode_set_mode_steps (s : GameState) (v : Nat) :
    (s.set_mode_steps v).mode = s.mode := rfl

theorem mode_reverse_all_ghosts (s : GameState) :
    s.reverse_all_ghosts.mode = s.mode := rfl

theorem mode_decrement_mode_steps (s : GameState) :
    s.decrement_mode_steps.mode = s.mode := by
  unfold GameState.decrement_mode_steps
  split <;> rfl

theorem mode_decrement_level_steps (s : GameState) :
    s.decrement_level_steps.mode = s.mode := by
  unfold GameState.decrement_level_steps
  split <;> rfl

theorem mode_decrement_fruit_steps (s : GameState) :
    s.decrement_fruit_steps.mode = s.mode := by
  unfold GameState.decrement_fruit_steps
  split <;> rfl

theorem ms_set_update_period (s : GameState) (v : Nat) :
    (s.set_update_period v).mode_steps = s.mode_steps := rfl

theorem ms_set_level_steps (s : GameState) (v : Nat) :
    (s.set_level_steps v).mode_steps = s.mode_steps := rfl

theorem ms_set_mode_steps (s : GameState) (v : Nat) :
    (s.set_mode_steps v).mode_steps = v := rfl

theorem ms_reverse_all_ghosts (s : GameState) :
    s.reverse_all_ghosts.mode_steps = s.mode_steps := rfl

theorem ms_decrement_mode_steps (s : GameState) :
    s.decrement_mode_steps.mode_steps = s.mode_steps - 1 := by
  unfold GameState.decrement_mode_steps
  split
  · rfl
  · omega

theorem ms_decrement_level_steps (s : GameState) :
    s.decrement_level_steps.mode_steps = s.mode_steps := by
  unfold GameState.decrement_level_steps
  split <;> rfl

theorem ms_decrement_fruit_steps (s : GameState) :
    s.decrement_fruit_steps.mode_steps = s.mode_steps := by
  unfold GameState.decrement_fruit_steps
  split <;> rfl

theorem np_reverse_all_ghosts (s : GameState) :
    s.reverse_all_ghosts.num_pellets = s.num_pellets := rfl

theorem np_set_update_period (s : GameState) (v : Nat) :
    (s.set_update_period v).num_pellets = s.num_pellets := rfl

theorem np_set_level_steps (s : GameState) (v : Nat) :
    (s.set_level_steps v).num_pellets = s.num_pellets := rfl

theorem np_set_mode_steps (s : GameState) (v : Nat) :
    (s.set_mode_steps v).num_pellets = s.num_pellets := rfl

theorem reverse_all_ghosts_trapped (s : GameState) (i : Fin 4) :
    1 ≤ (s.reverse_all_ghosts.ghosts i).trapped_steps := by
  simp only [GameState.reverse_all_ghosts]
  split
  · exact Nat.le_refl 1
  · rename_i htrap
    simp only [GhostState.is_trapped, not_lt, decide_eq_true_eq, not_not] at htrap
    omega

/-- C6: in `handle_step_events`, when the mode-step countdown is zero the mode
flips between Scatter and Chase, the countdown is reloaded to the new mode's
duration, and every agent is put in the trapped state that forces a direction
reversal; the countdown then decrements (within the same call) exactly when
the remaining-pellet count is at or above the first anger threshold (20), so
mode progression freezes once the board is nearly cleared. -/
theorem handle_step_events_mode_spec (s : GameState) :
    (s.handle_step_events.mode = if s.mode_steps = 0 then flipMode s.mode else s.mode)
    ∧ s.handle_step_events.mode_steps =
        (if ANGER_THRESHOLD1 ≤ s.num_pellets then
          (if s.mode_steps = 0 then (flipMode s.mode).duration else s.mode_steps) - 1
        else (if s.mode_steps = 0 then (flipMode s.mode).duration else s.mode_steps))
    ∧ (s.mode_steps = 0 →
        ∀ i : Fin 4, 1 ≤ (s.handle_step_events.ghosts i).trapped_steps) := by
  refine ⟨?_, ?_, ?_⟩
  · simp only [GameState.handle_step_events]
    split_ifs with h1 h2 h3 h4 h5 h6 <;> cases hm : s.mode <;>
      simp_all [mode_decrement_fruit_steps, mode_decrement_level_steps,
        mode_decrement_mode_steps, mode_set_update_period, mode_set_level_steps,
        mode_set_mode_steps, mode_reverse_all_ghosts, flipMode]
  · simp only [GameState.handle_step_events]
    split_ifs with h1 h2 h3 h4 h5 h6 <;> cases hm : s.mode <;>
      simp_all [ms_decrement_fruit_steps, ms_decrement_level_steps,
        ms_decrement_mode_steps, ms_set_update_period, ms_set_level_steps,
        ms_set_mode_steps, ms_reverse_all_ghosts, np_reverse_all_ghosts,
        np_set_mode_steps, np_set_update_period, np_set_level_steps, flipMode,
        GameMode.duration]
  · intro h0 i
    simp only [GameState.handle_step_events, h0, if_true]
    have htr : ∀ t : GameState, 1 ≤ (t.reverse_all_ghosts.ghosts i).trapped_steps :=
      fun t => reverse_all_ghosts_trapped t i
    cases hm : s.mode <;>
      simp_all [ghosts_decrement_fruit_steps, ghosts_decrement_level_steps,
        ghosts_decrement_mode_steps, ghosts_set_update_period, ghosts_set_level_steps,
        ghosts_set_mode_steps, apply_ite GameState.ghosts]

/-- C6 witness: `handle_step_events_mode_spec` at the fresh game with the
countdown forced to zero: the mode flips from Scatter to Chase, the countdown
reloads to 180 and then decrements to 179 (244 pellets ≥ 20), and every
ghost is left trapped. -/
theorem handle_step_events_mode_spec_witness :
    ({ initS with mode_steps := 0 } : GameState).handle_step_events.mode = GameMode.CHASE
    ∧ ({ initS with mode_steps := 0 } : GameState).handle_step_events.mode_steps = 179
    ∧ 1 ≤ (({ initS with mode_steps := 0 } : GameState).handle_step_events.ghosts 0).trapped_steps := by
  have h := handle_step_events_mode_spec { initS with mode_steps := 0 }
  refine ⟨?_, ?_, h.2.2 rfl 0⟩
  · rw [h.1]
    decide
  · rw [h.2.1]
    decide

/-! ### C5: combo scoring for two frightened agents in one pass -/

theorem setGhost_g00 (s : GameState) (g : GhostState) :
    (setGhost s 0 g).ghosts 0 = g := rfl

theorem setGhost_g01 (s : GameState) (g : GhostState) :
    (setGhost s 0 g).ghosts 1 = s.ghosts 1 := rfl

theorem setGhost_g02 (s : GameState) (g : GhostState) :
    (setGhost s 0 g).ghosts 2 = s.ghosts 2 := rfl

theorem setGhost_g03 (s : GameState) (g : GhostState) :
    (setGhost s 0 g).ghosts 3 = s.ghosts 3 := rfl

theorem setGhost_g10 (s : GameState) (g : GhostState) :
    (setGhost s 1 g).ghosts 0 = s.ghosts 0 := rfl

theorem setGhost_g11 (s : GameState) (g : GhostState) :
    (setGhost s 1 g).ghosts 1 = g := rfl

theorem setGhost_g12 (s : GameState) (g : GhostState) :
    (setGhost s 1 g).ghosts 2 = s.ghosts 2 := rfl

theorem setGhost_g13 (s : GameState) (g : GhostState) :
    (setGhost s 1 g).ghosts 3 = s.ghosts 3 := rfl

theorem setGhost_g20 (s : GameState) (g : GhostState) :
    (setGhost s 2 g).ghosts 0 = s.ghosts 0 := rfl

theorem setGhost_g21 (s : GameState) (g : GhostState) :
    (setGhost s 2 g).ghosts 1 = s.ghosts 1 := rfl

theorem setGhost_g22 (s : GameState) (g : GhostState) :
    (setGhost s 2 g).ghosts 2 = g := rfl

theorem setGhost_g23 (s : GameState) (g : GhostState) :
    (setGhost s 2 g).ghosts 3 = s.ghosts 3 := rfl

theorem setGhost_g30 (s : GameState) (g : GhostState) :
    (setGhost s 3 g).ghosts 0 = s.ghosts 0 := rfl

theorem setGhost_g31 (s : GameState) (g : GhostState) :
    (setGhost s 3 g).ghosts 1 = s.ghosts 1 := rfl

theorem setGhost_g32 (s : GameState) (g : GhostState) :
    (setGhost s 3 g).ghosts 2 = s.ghosts 2 := rfl

theorem setGhost_g33 (s : GameState) (g : GhostState) :
    (setGhost s 3 g).ghosts 3 = g := rfl

theorem ccLoop_cons_eat (pac : LocationState) (i : Fin 4) (rest : List (Fin 4))
    (s : GameState) (n : Nat)
    (hc : pac.collides_with (s.ghosts i).loc = true)
    (he : (s.ghosts i).eaten = false)
    (hf : (s.ghosts i).is_frightened = true) :
    GameState.ccLoop pac (i :: rest) s n
      = GameState.ccLoop pac rest (setGhost s i ((s.ghosts i).respawn)) (n + 1) := by
  simp only [GameState.ccLoop]
  rw [if_pos hc, if_neg (by simp [he]), if_pos hf]

theorem ccLoop_cons_skip (pac : LocationState) (i : Fin 4) (rest : List (Fin 4))
    (s : GameState) (n : Nat)
    (h : pac.collides_with (s.ghosts i).loc = false ∨ (s.ghosts i).eaten = true) :
    GameState.ccLoop pac (i :: rest) s n = GameState.ccLoop pac rest s n := by
  simp only [GameState.ccLoop]
  rcases h with h | h
  · rw [if_neg (by simp [h])]
  · split_ifs with hc hce <;> first | rfl | exact absurd h (by simp [hce])

/-- C5: if the player's position coincides with exactly two frightened,
not-yet-eaten agents (indices `i < j`; every other agent either does not
collide or is already eaten), one `check_collisions` pass awards
`COMBO_MULTIPLIER << combo` for the first and `COMBO_MULTIPLIER << (combo+1)`
for the second (saturating u16 additions) and leaves the combo counter two
higher; with a zero starting combo that is 200 then 400 within the same
resolution pass.  (`combo ≤ 7` keeps the u16 shift below the truncation
range.) -/
theorem check_collisions_two_frightened (s : GameState) (i j : Fin 4) (hij : i < j)
    (hci : s.pacman_loc.collides_with (s.ghosts i).loc = true)
    (hei : (s.ghosts i).eaten = false)
    (hfi : (s.ghosts i).is_frightened = true)
    (hcj : s.pacman_loc.collides_with (s.ghosts j).loc = true)
    (hej : (s.ghosts j).eaten = false)
    (hfj : (s.ghosts j).is_frightened = true)
    (hothers : ∀ k : Fin 4, k ≠ i → k ≠ j →
      s.pacman_loc.collides_with (s.ghosts k).loc = false ∨ (s.ghosts k).eaten = true)
    (hcombo : s.ghost_combo ≤ 7) :
    s.check_collisions.curr_score =
      min (min (s.curr_score + COMBO_MULTIPLIER * 2 ^ s.ghost_combo) 65535
        + COMBO_MULTIPLIER * 2 ^ (s.ghost_combo + 1)) 65535
    ∧ s.check_collisions.ghost_combo = s.ghost_combo + 2 := by
  have key : GameState.ccLoop s.pacman_loc [0, 1, 2, 3] s 0
      = (setGhost (setGhost s i ((s.ghosts i).respawn)) j ((s.ghosts j).respawn), 2, false) := by
    fin_cases i <;> fin_cases j
    · exact absurd hij (by decide)
    · replace hci : s.pacman_loc.collides_with (s.ghosts 0).loc = true := hci
      replace hei : (s.ghosts 0).eaten = false := hei
      replace hfi : (s.ghosts 0).is_frightened = true := hfi
      replace hcj : s.pacman_loc.collides_with (s.ghosts 1).loc = true := hcj
      replace hej : (s.ghosts 1).eaten = false := hej
      replace hfj : (s.ghosts 1).is_frightened = true := hfj
      rcases hothers 2 (by decide) (by decide) with ha | ha <;>
        rcases hothers 3 (by decide) (by decide) with hb | hb <;>
        simp [GameState.ccLoop, hci, hei, hfi, hcj, hej, hfj, ha, hb, setGhost_g00, setGhost_g01, setGhost_g02, setGhost_g03, setGhost_g10, setGhost_g11, setGhost_g12, setGhost_g13, setGhost_g20, setGhost_g21, setGhost_g22, setGhost_g23, setGhost_g30, setGhost_g31, setGhost_g32, setGhost_g33] <;>
        try rfl
    · replace hci : s.pacman_loc.collides_with (s.ghosts 0).loc = true := hci
      replace hei : (s.ghosts 0).eaten = false := hei
      replace hfi : (s.ghosts 0).is_frightened = true := hfi
      replace hcj : s.pacman_loc.collides_with (s.ghosts 2).loc = true := hcj
      replace hej : (s.ghosts 2).eaten = false := hej
      replace hfj : (s.ghosts 2).is_frightened = true := hfj
      rcases hothers 1 (by decide) (by decide) with ha | ha <;>
        rcases hothers 3 (by decide) (by decide) with hb | hb <;>
        simp [GameState.ccLoop, hci, hei, hfi, hcj, hej, hfj, ha, hb, setGhost_g00, setGhost_g01, setGhost_g02, setGhost_g03, setGhost_g10, setGhost_g11, setGhost_g12, setGhost_g13, setGhost_g20, setGhost_g21, setGhost_g22, setGhost_g23, setGhost_g30, setGhost_g31, setGhost_g32, setGhost_g33] <;>
        try rfl
    · replace hci : s.pacman_loc.collides_with (s.ghosts 0).loc = true := hci
      replace hei : (s.ghosts 0).eaten = false := hei
      replace hfi : (s.ghosts 0).is_frightened = true := hfi
      replace hcj : s.pacman_loc.collides_with (s.ghosts 3).loc = true := hcj
      replace hej : (s.ghosts 3).eaten = false := hej
      replace hfj : (s.ghosts 3).is_frightened = true := hfj
      rcases hothers 1 (by decide) (by decide) with ha | ha <;>
        rcases hothers 2 (by decide) (by decide) with hb | hb <;>
        simp [GameState.ccLoop, hci, hei, hfi, hcj, hej, hfj, ha, hb, setGhost_g00, setGhost_g01, setGhost_g02, setGhost_g03, setGhost_g10, setGhost_g11, setGhost_g12, setGhost_g13, setGhost_g20, setGhost_g21, setGhost_g22, setGhost_g23, setGhost_g30, setGhost_g31, setGhost_g32, setGhost_g33] <;>
        try rfl
    · exact absurd hij (by decide)
    · exact absurd hij (by decide)
    · replace hci : s.pacman_loc.collides_with (s.ghosts 1).loc = true := hci
      replace hei : (s.ghosts 1).eaten = false := hei
      replace hfi : (s.ghosts 1).is_frightened = true := hfi
      replace hcj : s.pacman_loc.collides_with (s.ghosts 2).loc = true := hcj
      replace hej : (s.ghosts 2).eaten = false := hej
      replace hfj : (s.ghosts 2).is_frightened = true := hfj
      rcases hothers 0 (by decide) (by decide) with ha | ha <;>
        rcases hothers 3 (by decide) (by decide) with hb | hb <;>
        simp [GameState.ccLoop, hci, hei, hfi, hcj, hej, hfj, ha, hb, setGhost_g00, setGhost_g01, setGhost_g02, setGhost_g03, setGhost_g10, setGhost_g11, setGhost_g12, setGhost_g13, setGhost_g20, setGhost_g21, setGhost_g22, setGhost_g23, setGhost_g30, setGhost_g31, setGhost_g32, setGhost_g33] <;>
        try rfl
    · replace hci : s.pacman_loc.collides_with (s.ghosts 1).loc = true := hci
      replace hei : (s.ghosts 1).eaten = false := hei
      replace hfi : (s.ghosts 1).is_frightened = true := hfi
      replace hcj : s.pacman_loc.collides_with (s.ghosts 3).loc = true := hcj
      replace hej : (s.ghosts 3).eaten = false := hej
      replace hfj : (s.ghosts 3).is_frightened = true := hfj
      rcases hothers 0 (by decide) (by decide) with ha | ha <;>
        rcases hothers 2 (by decide) (by decide) with hb | hb <;>
        simp [GameState.ccLoop, hci, hei, hfi, hcj, hej, hfj, ha, hb, setGhost_g00, setGhost_g01, setGhost_g02, setGhost_g03, setGhost_g10, setGhost_g11, setGhost_g12, setGhost_g13, setGhost_g20, setGhost_g21, setGhost_g22, setGhost_g23, setGhost_g30, setGhost_g31, setGhost_g32, setGhost_g33] <;>
        try rfl
    · exact absurd hij (by decide)
    · exact absurd hij (by decide)
    · exact absurd hij (by decide)
    · replace hci : s.pacman_loc.collides_with (s.ghosts 2).loc = true := hci
      replace hei : (s.ghosts 2).eaten = false := hei
      replace hfi : (s.ghosts 2).is_frightened = true := hfi
      replace hcj : s.pacman_loc.collides_with (s.ghosts 3).loc = true := hcj
      replace hej : (s.ghosts 3).eaten = false := hej
      replace hfj : (s.ghosts 3).is_frightened = true := hfj
      rcases hothers 0 (by decide) (by decide) with ha | ha <;>
        rcases hothers 1 (by decide) (by decide) with hb | hb <;>
        simp [GameState.ccLoop, hci, hei, hfi, hcj, hej, hfj, ha, hb, setGhost_g00, setGhost_g01, setGhost_g02, setGhost_g03, setGhost_g10, setGhost_g11, setGhost_g12, setGhost_g13, setGhost_g20, setGhost_g21, setGhost_g22, setGhost_g23, setGhost_g30, setGhost_g31, setGhost_g32, setGhost_g33] <;>
        try rfl
    · exact absurd hij (by decide)
    · exact absurd hij (by decide)
    · exact absurd hij (by decide)
    · exact absurd hij (by decide)
  have hs2c : (setGhost (setGhost s i ((s.ghosts i).respawn)) j
      ((s.ghosts j).respawn)).ghost_combo = s.ghost_combo := rfl
  have hs2s : (setGhost (setGhost s i ((s.ghosts i).respawn)) j
      ((s.ghosts j).respawn)).curr_score = s.curr_score := rfl
  have e2 : (COMBO_MULTIPLIER * 2 ^ (s.ghost_combo % 16)) % 65536
      = COMBO_MULTIPLIER * 2 ^ s.ghost_combo := by
    have hpow : 2 ^ s.ghost_combo ≤ 2 ^ 7 := Nat.pow_le_pow_right (by omega) hcombo
    have : s.ghost_combo % 16 = s.ghost_combo := by omega
    rw [this]
    exact Nat.mod_eq_of_lt (by unfold COMBO_MULTIPLIER; omega)
  have e5 : (COMBO_MULTIPLIER * 2 ^ ((s.ghost_combo + 1) % 256 % 16)) % 65536
      = COMBO_MULTIPLIER * 2 ^ (s.ghost_combo + 1) := by
    have hpow : 2 ^ (s.ghost_combo + 1) ≤ 2 ^ 8 := Nat.pow_le_pow_right (by omega) (by omega)
    have : (s.ghost_combo + 1) % 256 % 16 = s.ghost_combo + 1 := by omega
    rw [this]
    exact Nat.mod_eq_of_lt (by unfold COMBO_MULTIPLIER; omega)
  unfold GameState.check_collisions
  rw [key]
  simp only [Bool.false_eq_true, if_false, GameState.awards, GameState.increment_score,
    hs2c, hs2s]
  constructor
  · simp only [e2]
    have : (min (s.curr_score + COMBO_MULTIPLIER * 2 ^ s.ghost_combo) 65535)
        = min (s.curr_score + COMBO_MULTIPLIER * 2 ^ s.ghost_combo) 65535 := rfl
    rw [e5]
  · omega

/-- Concrete state for the C5 witness: the player and the Red and Pink ghosts
share cell (14, 13); both are frightened and not eaten; Cyan and Orange are at
the sentinel. -/
def sC5 : GameState :=
  setGhost (setGhost { initS with pacman_loc := ⟨14, 13, .Up⟩ } 0
    { initS.ghosts 0 with loc := ⟨14, 13, .Left⟩, fright_steps := 5 }) 1
    { initS.ghosts 1 with loc := ⟨14, 13, .Right⟩, fright_steps := 5 }

/-- C5 witness: `check_collisions_two_frightened` at `sC5`: eating Red then
Pink in one pass awards 200 then 400 (total 600) and leaves the combo at 2. -/
theorem check_collisions_two_frightened_witness :
    sC5.check_collisions.curr_score = 600 ∧ sC5.check_collisions.ghost_combo = 2 := by
  have h := check_collisions_two_frightened sC5 0 1 (by decide) (by decide) (by decide)
    (by decide) (by decide) (by decide) (by decide) (by decide) (by decide)
  exact ⟨h.1.trans (by decide), h.2.trans (by decide)⟩

/-! ### C3: the planning loop aborts on the first skipped agent (code bug) -/

/-- Concrete state for C3: a fresh game (Red, index 0, still at the sentinel)
with the Pink ghost (index 1) placed on the board at its spawn cell, trapped
for 5 steps. -/
def sC3 : GameState :=
  setGhost initS 1 { initS.ghosts 1 with loc := ⟨13, 13, .Down⟩ }

/-- C3: at `sC3`, whose first agent is mid-respawn (sentinel position),
`plan_all_ghosts` returns without touching agent 1 at all — its trapped-steps
stay 5 and its planned location is unchanged — although the claim (and the
spec's per-agent planning contract, step 3) requires the trap-handling for
agent 1 to advance its planned location and decrement its trapped-steps to 4.
The `return` inside the Rust loop exits the whole function instead of
skipping one agent, so one skipped agent prevents all later agents from
being planned.  This holds for every random oracle. -/
theorem plan_all_ghosts_abort_bug (rng : Nat → Nat → Nat × Nat) (s' : GameState)
    (h : sC3.plan_all_ghosts rng = some s') :
    (s'.ghosts 1).trapped_steps = 5
    ∧ (s'.ghosts 1).next_loc = (sC3.ghosts 1).next_loc
    ∧ (sC3.ghosts 1).trapped_steps = 5 := by
  have he : (sC3.plan_all_ghosts rng).map
      (fun t => ((t.ghosts 1).trapped_steps, (t.ghosts 1).next_loc))
      = some (5, GHOST_SPAWN_LOCS .Pink) := rfl
  rw [h] at he
  simp only [Option.map_some', Option.some.injEq, Prod.mk.injEq] at he
  exact ⟨he.1, by rw [he.2]; rfl, rfl⟩

/-- C3 witness: `plan_all_ghosts_abort_bug` at the deterministic oracle; the
planner does return a state (no panic) and agent 1 is left unplanned. -/
theorem plan_all_ghosts_abort_bug_witness :
    (sC3.plan_all_ghosts rngDet).map (fun t => (t.ghosts 1).trapped_steps) = some 5 := by
  rcases he : sC3.plan_all_ghosts rngDet with _ | s'
  · have hs : (sC3.plan_all_ghosts rngDet).isSome = true := rfl
    rw [he] at hs
    cases hs
  · have h := plan_all_ghosts_abort_bug rngDet s' he
    rw [Option.map_some', h.1]

/-! ### C1 / C4 support: stepwise facts about the codec -/

theorem planLoop_fields (rng : Nat → Nat → Nat × Nat) (l : List (Fin 4))
    (s s' : GameState) (h : GameState.planLoop rng l s = some s') :
    s'.curr_ticks = s.curr_ticks ∧ s'.update_period = s.update_period
    ∧ s'.mode = s.mode ∧ s'.paused = s.paused ∧ s'.mode_steps = s.mode_steps
    ∧ s'.level_steps = s.level_steps ∧ s'.curr_score = s.curr_score
    ∧ s'.curr_level = s.curr_level ∧ s'.curr_lives = s.curr_lives
    ∧ s'.pacman_loc = s.pacman_loc ∧ s'.fruit_loc = s.fruit_loc
    ∧ s'.fruit_steps = s.fruit_steps ∧ s'.ghost_combo = s.ghost_combo
    ∧ s'.pellets = s.pellets ∧ s'.num_pellets = s.num_pellets
    ∧ s'.walls = s.walls := by
  induction l generalizing s with
  | nil =>
    simp only [GameState.planLoop, Option.some.injEq] at h
    subst h
    exact ⟨rfl, rfl, rfl, rfl, rfl, rfl, rfl, rfl, rfl, rfl, rfl, rfl, rfl, rfl, rfl, rfl⟩
  | cons i rest ih =>
    simp only [GameState.planLoop] at h
    cases hp : GameState.planGhost rng s i with
    | panic =>
      rw [hp] at h
      cases h
    | stop g =>
      rw [hp] at h
      injection h with h
      subst h
      exact ⟨rfl, rfl, rfl, rfl, rfl, rfl, rfl, rfl, rfl, rfl, rfl, rfl, rfl, rfl, rfl, rfl⟩
    | next g seed =>
      rw [hp] at h
      exact ih { setGhost s i g with seed := seed } h

theorem u32be_roundtrip (x : Nat) (rest : List Nat) :
    readU32D (u32be x ++ rest) = (x % 2 ^ 32, rest) := by
  simp only [u32be, List.cons_append, List.nil_append, readU32D]
  have : (((x / 2 ^ 24 % 256) * 256 + x / 2 ^ 16 % 256) * 256 + x / 2 ^ 8 % 256) * 256
      + x % 256 = x % 2 ^ 32 := by
    omega
  rw [this]

theorem decodePellets_encode (l : List Nat) (rest : List Nat) :
    decodePellets l.length ((l.map u32be).flatten ++ rest) = l.map (· % 2 ^ 32) := by
  induction l with
  | nil => rfl
  | cons x xs ih =>
    simp only [List.map_cons, List.flatten_cons, List.length_cons, List.append_assoc]
    simp only [decodePellets, u32be_roundtrip]
    rw [ih]

theorem from_bytes_ok_fields (rng : Nat → Nat → Nat × Nat)
    {t0 t1 up mb ms md sc0 sc1 lvl lvs : Nat}
    {ga0 ga1 ga2 gb0 gb1 gb2 gc0 gc1 gc2 gd0 gd1 gd2 : Nat}
    {p0 p1 f0 f1 fs fd : Nat} {pbytes : List Nat} {seed : Nat} {s' : GameState}
    (h : GameState.from_bytes rng (t0 :: t1 :: up :: mb :: ms :: md :: sc0 :: sc1 ::
      lvl :: lvs :: ga0 :: ga1 :: ga2 :: gb0 :: gb1 :: gb2 :: gc0 :: gc1 :: gc2 ::
      gd0 :: gd1 :: gd2 :: p0 :: p1 :: f0 :: f1 :: fs :: fd :: pbytes) seed = .ok s') :
    s'.curr_ticks = t0 * 256 + t1
    ∧ s'.update_period = up
    ∧ (mb = 0 → s'.mode = GameMode.CHASE ∧ s'.paused = true)
    ∧ (mb = 1 → s'.mode = GameMode.SCATTER ∧ s'.paused = false)
    ∧ (mb = 2 → s'.mode = GameMode.CHASE ∧ s'.paused = false)
    ∧ s'.mode_steps = ms
    ∧ s'.level_steps = 0
    ∧ s'.curr_score = sc0 * 256 + sc1
    ∧ s'.curr_level = lvl
    ∧ s'.curr_lives = lvs
    ∧ s'.fruit_steps = fs
    ∧ s'.ghost_combo = 0
    ∧ s'.pellets = decodePellets 31 pbytes
    ∧ s'.num_pellets = ((decodePellets 31 pbytes).map countOnes32).sum := by
  cases hmp : modeParse mb with
  | error e => simp [GameState.from_bytes, hmp] at h
  | ok mp =>
    simp only [GameState.from_bytes, hmp] at h
    split at h
    · simp at h
    · rename_i s2 hpp
      injection h with h
      subst h
      simp only [GameState.plan_all_ghosts] at hpp
      obtain ⟨f1, f2, f3, f4, f5, f6, f7, f8, f9, _, _, f12, f13, f14, f15, _⟩ :=
        planLoop_fields rng _ _ _ hpp
      refine ⟨f1.trans rfl, f2.trans rfl, ?_, ?_, ?_, f5.trans rfl, f6.trans rfl,
        f7.trans rfl, f8.trans rfl, f9.trans rfl, f12.trans rfl, f13.trans rfl,
        f14.trans rfl, f15.trans rfl⟩
      · intro hmb
        rw [hmb] at hmp
        injection hmp with hmp2
        exact ⟨f3.trans (by rw [← hmp2]), f4.trans (by rw [← hmp2])⟩
      · intro hmb
        rw [hmb] at hmp
        injection hmp with hmp2
        exact ⟨f3.trans (by rw [← hmp2]), f4.trans (by rw [← hmp2])⟩
      · intro hmb
        rw [hmb] at hmp
        injection hmp with hmp2
        exact ⟨f3.trans (by rw [← hmp2]), f4.trans (by rw [← hmp2])⟩

theorem from_bytes_ok_length (rng : Nat → Nat → Nat × Nat) (bytes : List Nat)
    (seed : Nat) (h : (GameState.from_bytes rng bytes seed).toOption.isSome = true) :
    28 ≤ bytes.length := by
  by_contra hlen
  push_neg at hlen
  rcases bytes with _ | ⟨b0, bytes⟩
  · simp [GameState.from_bytes, Except.toOption, Option.isSome] at h
  rcases bytes with _ | ⟨b1, bytes⟩
  · simp [GameState.from_bytes, Except.toOption, Option.isSome] at h
  rcases bytes with _ | ⟨b2, bytes⟩
  · simp [GameState.from_bytes, Except.toOption, Option.isSome] at h
  rcases bytes with _ | ⟨b3, bytes⟩
  · simp [GameState.from_bytes, Except.toOption, Option.isSome] at h
  cases hmp : modeParse b3 with
  | error e =>
    simp [GameState.from_bytes, hmp, Except.toOption, Option.isSome] at h
  | ok mp =>
    simp only [GameState.from_bytes, hmp] at h
    rcases bytes with _ | ⟨b4, bytes⟩
    · simp [Except.toOption, Option.isSome] at h
    rcases bytes with _ | ⟨b5, bytes⟩
    · simp [Except.toOption, Option.isSome] at h
    rcases bytes with _ | ⟨b6, bytes⟩
    · simp [Except.toOption, Option.isSome] at h
    rcases bytes with _ | ⟨b7, bytes⟩
    · simp [Except.toOption, Option.isSome] at h
    rcases bytes with _ | ⟨b8, bytes⟩
    · simp [Except.toOption, Option.isSome] at h
    rcases bytes with _ | ⟨b9, bytes⟩
    · simp [Except.toOption, Option.isSome] at h
    rcases bytes with _ | ⟨b10, bytes⟩
    · simp [Except.toOption, Option.isSome] at h
    rcases bytes with _ | ⟨b11, bytes⟩
    · simp [Except.toOption, Option.isSome] at h
    rcases bytes with _ | ⟨b12, bytes⟩
    · simp [Except.toOption, Option.isSome] at h
    rcases bytes with _ | ⟨b13, bytes⟩
    · simp [Except.toOption, Option.isSome] at h
    rcases bytes with _ | ⟨b14, bytes⟩
    · simp [Except.toOption, Option.isSome] at h
    rcases bytes with _ | ⟨b15, bytes⟩
    · simp [Except.toOption, Option.isSome] at h
    rcases bytes with _ | ⟨b16, bytes⟩
    · simp [Except.toOption, Option.isSome] at h
    rcases bytes with _ | ⟨b17, bytes⟩
    · simp [Except.toOption, Option.isSome] at h
    rcases bytes with _ | ⟨b18, bytes⟩
    · simp [Except.toOption, Option.isSome] at h
    rcases bytes with _ | ⟨b19, bytes⟩
    · simp [Except.toOption, Option.isSome] at h
    rcases bytes with _ | ⟨b20, bytes⟩
    · simp [Except.toOption, Option.isSome] at h
    rcases bytes with _ | ⟨b21, bytes⟩
    · simp [Except.toOption, Option.isSome] at h
    rcases bytes with _ | ⟨b22, bytes⟩
    · simp [Except.toOption, Option.isSome] at h
    rcases bytes with _ | ⟨b23, bytes⟩
    · simp [Except.toOption, Option.isSome] at h
    rcases bytes with _ | ⟨b24, bytes⟩
    · simp [Except.toOption, Option.isSome] at h
    rcases bytes with _ | ⟨b25, bytes⟩
    · simp [Except.toOption, Option.isSome] at h
    rcases bytes with _ | ⟨b26, bytes⟩
    · simp [Except.toOption, Option.isSome] at h
    rcases bytes with _ | ⟨b27, bytes⟩
    · simp [Except.toOption, Option.isSome] at h
    simp only [List.length_cons] at hlen
    omega

theorem from_bytes_bad_mode (rng : Nat → Nat → Nat × Nat) (b0 b1 b2 m : Nat)
    (rest : List Nat) (seed : Nat) (hm : 3 ≤ m) :
    GameState.from_bytes rng (b0 :: b1 :: b2 :: m :: rest) seed = .error .panic := by
  have hmp : modeParse m = .error .panic := by
    unfold modeParse
    rw [if_neg (by omega), if_neg (by omega), if_neg (by omega)]
  simp only [GameState.from_bytes, hmp]

/-! ### C4: decode rejection of malformed input -/

set_option maxRecDepth 10000 in
/-- C4 counterexample: `to_bytes` of the fresh game truncated to its first 28
bytes — cutting off the entire 124-byte pellet section — is *accepted* by
`from_bytes` (no error of any kind) and silently patched: every pellet word
decodes as 0 and the pellet count as 0.  This contradicts both "rejects every
truncated input buffer with an explicit I/O error" and "malformed input is
never silently patched with default values". -/
theorem from_bytes_truncated_accepted :
    ((initS.to_bytes).take 28).length < (initS.to_bytes).length
    ∧ (GameState.from_bytes rngDet ((initS.to_bytes).take 28) 0).toOption.isSome = true
    ∧ (GameState.from_bytes rngDet ((initS.to_bytes).take 28) 0).toOption.map
        (fun t => t.num_pellets) = some 0 := by
  refine ⟨by decide, by rfl, by rfl⟩

/-- C4 amended: `from_bytes` does reject with an error any buffer shorter
than the 28 mandatory header/agent/player/fruit bytes (an I/O error, except
that a buffer at least 4 bytes long whose mode byte is invalid dies earlier,
see the second part); truncation inside the trailing pellet section is
*silently zero-filled* instead of rejected (see the counterexample); and a
mode byte other than 0, 1, 2 is not surfaced as a typed decode failure but
hits `unreachable!()`, i.e. aborts the process by panic. -/
theorem from_bytes_reject_spec (rng : Nat → Nat → Nat × Nat) (bytes rest : List Nat)
    (seed b0 b1 b2 m : Nat) :
    ((GameState.from_bytes rng bytes seed).toOption.isSome = true → 28 ≤ bytes.length)
    ∧ (3 ≤ m →
        GameState.from_bytes rng (b0 :: b1 :: b2 :: m :: rest) seed = .error .panic) :=
  ⟨from_bytes_ok_length rng bytes seed, from_bytes_bad_mode rng b0 b1 b2 m rest seed⟩

/-- C4 witness: `from_bytes_reject_spec` applied to the complete snapshot of
the fresh game (which decodes, so its length is at least 28) and to a header
with mode byte 3 (which panics rather than returning an I/O error). -/
theorem from_bytes_reject_spec_witness :
    28 ≤ (initS.to_bytes).length
    ∧ GameState.from_bytes rngDet [0, 0, 12, 3] 0 = .error .panic := by
  refine ⟨(from_bytes_reject_spec rngDet initS.to_bytes [] 0 0 0 0 3).1 (by rfl), ?_⟩
  exact (from_bytes_reject_spec rngDet [] [] 0 0 0 12 3).2 (by omega)

/-! ### C1: decode-of-encode round trip -/

/-- C1 counterexample: the claim fails already at the reachable initial state
`new_with_seed 0`: decoding its encoding (with its own seed) succeeds but
returns `level_steps = 0` instead of 960 and, because the fresh game is
paused in Scatter mode and the wire format collapses every paused state to
mode byte 0, `mode = CHASE` instead of `SCATTER` — neither field is among the
claim's two permitted exceptions. -/
theorem roundtrip_counterexample :
    ¬ (∀ (s s' : GameState), Reachable s →
        GameState.from_bytes rngDet s.to_bytes s.seed = .ok s' →
        s'.level_steps = s.level_steps ∧ s'.mode = s.mode) := by
  intro hall
  have haux : (GameState.from_bytes rngDet initS.to_bytes initS.seed).toOption.map
      (fun t => (t.level_steps, t.mode)) = some (0, GameMode.CHASE) := by rfl
  rcases hd : GameState.from_bytes rngDet initS.to_bytes initS.seed with e | s'
  · rw [hd] at haux
    simp [Except.toOption] at haux
  · have h2 := hall initS s' (Reachable.init 0) hd
    rw [hd] at haux
    simp only [Except.toOption, Option.map_some', Option.some.injEq, Prod.mk.injEq] at haux
    have h960 : initS.level_steps = 960 := rfl
    have hsc : initS.mode = GameMode.SCATTER := rfl
    rw [haux.1, h960] at h2
    exact absurd h2.1 (by omega)

/-- C1 amended: decoding the encoding of a well-formed state (score within
u16, 31 pellet words each within u32) reproduces the scalar header and board
fields — ticks modulo 2^16, update period, paused flag, mode when not paused,
mode-step countdown, score, level, lives, fruit countdown, and the pellet
grid — while `level_steps` and `ghost_combo` are reset to 0 and a paused
state always decodes as Chase; the ghost records, planned directions and
`num_pellets` are re-derived rather than preserved (and are not claimed
here). -/
theorem from_bytes_to_bytes_roundtrip (rng : Nat → Nat → Nat × Nat)
    (s s' : GameState) (seed : Nat)
    (hsc : s.curr_score < 65536) (hpl : s.pellets.length = 31)
    (hpb : ∀ x ∈ s.pellets, x < 2 ^ 32)
    (hdec : GameState.from_bytes rng s.to_bytes seed = .ok s') :
    s'.curr_ticks = s.curr_ticks % 65536
    ∧ s'.update_period = s.update_period
    ∧ s'.paused = s.paused
    ∧ (s.paused = false → s'.mode = s.mode)
    ∧ (s.paused = true → s'.mode = GameMode.CHASE)
    ∧ s'.mode_steps = s.mode_steps
    ∧ s'.curr_score = s.curr_score
    ∧ s'.curr_level = s.curr_level
    ∧ s'.curr_lives = s.curr_lives
    ∧ s'.fruit_steps = s.fruit_steps
    ∧ s'.pellets = s.pellets
    ∧ s'.level_steps = 0
    ∧ s'.ghost_combo = 0 := by
  rw [GameState.to_bytes] at hdec
  simp only [u16be, ghostBytes, LocationState.to_bytes, List.cons_append,
    List.nil_append] at hdec
  obtain ⟨g1, g2, g3a, g3b, g3c, g4, g5, g6, g7, g8, g9, g10, g11, _⟩ :=
    from_bytes_ok_fields rng hdec
  have hdp : decodePellets 31 ((s.pellets.map u32be).flatten) = s.pellets := by
    have h0 := decodePellets_encode s.pellets []
    rw [List.append_nil, hpl] at h0
    rw [h0]
    rw [show s.pellets.map (· % 2 ^ 32) = s.pellets.map id from
      List.map_congr_left fun x hx => Nat.mod_eq_of_lt (hpb x hx), List.map_id]
  have hticks : s'.curr_ticks = s.curr_ticks % 65536 := g1.trans (by omega)
  have hscore : s'.curr_score = s.curr_score := g6.trans (by omega)
  have hmode : s'.paused = s.paused ∧ (s.paused = false → s'.mode = s.mode)
      ∧ (s.paused = true → s'.mode = GameMode.CHASE) := by
    cases hpz : s.paused
    · cases hmd : s.mode
      · have h3 := g3c (by rw [hpz, hmd]; rfl)
        exact ⟨h3.2, fun _ => h3.1, fun hc => absurd hc (by simp)⟩
      · have h3 := g3b (by rw [hpz, hmd]; rfl)
        exact ⟨h3.2, fun _ => h3.1, fun hc => absurd hc (by simp)⟩
    · cases hmd : s.mode <;>
      · have h3 := g3a (by rw [hpz, hmd]; rfl)
        exact ⟨h3.2, fun hc => absurd hc (by simp), fun _ => h3.1⟩
  exact ⟨hticks, g2, hmode.1, hmode.2.1, hmode.2.2, g4, hscore, g7, g8, g9,
    g11.trans hdp, g5, g10⟩

/-- The state obtained by decoding the encoding of the fresh game. -/
def initSdec : GameState :=
  (GameState.from_bytes rngDet initS.to_bytes 0).toOption.getD initS

/-- C1 witness: `from_bytes_to_bytes_roundtrip` at the fresh game: the decode
succeeds and reproduces the header and pellet fields while resetting
`level_steps` to 0. -/
theorem from_bytes_to_bytes_roundtrip_witness :
    GameState.from_bytes rngDet initS.to_bytes 0 = .ok initSdec
    ∧ initSdec.update_period = initS.update_period
    ∧ initSdec.pellets = initS.pellets
    ∧ initSdec.level_steps = 0 := by
  have hd : GameState.from_bytes rngDet initS.to_bytes 0 = .ok initSdec := by rfl
  have h := from_bytes_to_bytes_roundtrip rngDet initS initSdec 0 (by decide)
    (by decide) (by decide) hd
  exact ⟨hd, h.2.1, h.2.2.2.2.2.2.2.2.2.2.1, h.2.2.2.2.2.2.2.2.2.2.2.1⟩

end Pacbot
